import Mathlib

/-!
Shallow embedding of the constrained AAS (Asset Administration Shell) data-model core
of this repository, together with proofs about its documented behaviour.

The submodel-element class hierarchy and its constructors are translated from
`src/aas/model/submodel.py`.  The supporting modules that this file of the repository
imports (`aas/model/base.py`, `aas/model/provider.py`, the example-data helper
`_helper.py` and the adapter table `_generic.py`) are not part of the sources; the
definitions that stand in for them are marked `Modelled from the spec:` in their doc
comments and follow the specification text (and, for observable message formats, the
expected strings asserted by the repository's own test files under `src/test/`).

Python `set` arguments are modelled as lists (the order of iteration is irrelevant to
every property proved here); Python strings used as identifier payloads are modelled
as their UTF-8 byte sequences (`List Nat`) where byte-level encoding matters, and as
`String` elsewhere.  A constructor or operation that can raise is modelled as a
function into `Except AASError _`; a constructor whose body only assigns attributes is
total and always returns `Except.ok`.
-/

/-- Modelled from the spec: `base.IdentifierType`, the id-type enum of an `Identifier`
(`base.py` is not among the sources; the spec lists IRI, IRDI, CUSTOM). -/
inductive IdentifierType where
  | IRDI
  | IRI
  | CUSTOM
deriving DecidableEq

/-- Modelled from the spec: `base.Identifier` — globally unique (id, id_type) pair, a value
type with equality by both components.  The `id` string is modelled as its UTF-8 byte
sequence so that the adapter's percent-encoding (claim about `http.py`) is byte-faithful. -/
structure Identifier where
  id : List Nat
  id_type : IdentifierType
deriving DecidableEq

/-- UTF-8 byte sequence of an ASCII Lean string (used to write concrete identifiers). -/
def strBytes (s : String) : List Nat :=
  s.data.map Char.toNat

/-- Decode a byte sequence back into a string (used for rendering messages). -/
def strOfBytes (bs : List Nat) : String :=
  String.mk (bs.map Char.ofNat)

/-- Modelled from the spec: `base.KeyElements`, the element-kind enum of a `Key`. -/
inductive KeyElements where
  | GLOBAL_REFERENCE
  | PROPERTY
  | SUBMODEL
  | ASSET
  | CONCEPT_DESCRIPTION
  | SUBMODEL_ELEMENT
deriving DecidableEq

/-- Modelled from the spec: `base.KeyType`, the id-type enum of a `Key`. -/
inductive KeyType where
  | IRDI
  | IRI
  | CUSTOM
  | IDSHORT
deriving DecidableEq

/-- Modelled from the spec: `base.Key` — one link of a Reference key chain. -/
structure Key where
  type_ : KeyElements
  local_ : Bool
  value : String
  id_type : KeyType
deriving DecidableEq

/-- Modelled from the spec: `base.Reference` — ordered Key chain addressing a Referable. -/
structure Reference where
  key : List Key
deriving DecidableEq

/-- Modelled from the spec: `base.ModelingKind` — whether an element is a schema-level
template or a concrete instance (the enum values referenced by `submodel.py`). -/
inductive ModelingKind where
  | TEMPLATE
  | INSTANCE
deriving DecidableEq

/-- Modelled from the spec: `base.EntityType` — co-managed vs self-managed entity. -/
inductive EntityType where
  | CO_MANAGED_ENTITY
  | SELF_MANAGED_ENTITY
deriving DecidableEq

/-- Modelled from the spec: `base.DataTypeDef` — the XSD-style value type tag of a
Property/Range (`model.datatypes.String`, `model.datatypes.Int`, ...). -/
inductive DataTypeDef where
  | STRING
  | INT
  | BOOLEAN
deriving DecidableEq

/-- Modelled from the spec: `base.ValueDataType` — a concrete attribute value. -/
inductive ValueDataType where
  | intVal (n : Int)
  | strVal (s : String)
  | boolVal (b : Bool)
deriving DecidableEq

/-- Modelled from the spec: `base.LangStringSet` — language-tagged string map. -/
abbrev LangStringSet := List (String × String)

/-- Modelled from the spec: `base.Qualifier` (the concrete `base.Constraint`) — typed
key-value assertion attached to a qualifiable element, unique by `type_` within it. -/
structure Qualifier where
  type_ : String
  value_type : DataTypeDef
  value : Option ValueDataType
deriving DecidableEq

/-- Modelled from the spec: `base.AdministrativeInformation` (version, revision). -/
structure AdministrativeInformation where
  version : Option String
  revision : Option String
deriving DecidableEq

/-- The common attributes assigned by `SubmodelElement.__init__`
(src/aas/model/submodel.py:19-59).  The non-owning parent back-reference is modelled by
presence only (`Option Unit`): it is never consulted by any behaviour proved here. -/
structure SubmodelElementData where
  id_short : String
  category : Option String
  description : Option LangStringSet
  parent : Option Unit
  data_specification : List Reference
  semantic_id : Option Reference
  qualifier : List Qualifier
  kind : ModelingKind
deriving DecidableEq

/-- The closed set of concrete submodel-element classes of `src/aas/model/submodel.py`
as one variant type.  `Operation` stores its `OperationVariable`s as child elements of
the `operationVariable` variant; `AnnotatedRelationshipElement.annotation` is a set of
References in this version of the code and is stored in the field `annotations`. -/
inductive SubmodelElement where
  | property (common : SubmodelElementData) (value_type : DataTypeDef)
      (value : Option ValueDataType) (value_id : Option Reference)
  | multiLanguageProperty (common : SubmodelElementData) (value : Option LangStringSet)
      (value_id : Option Reference)
  | range (common : SubmodelElementData) (value_type : DataTypeDef)
      (min_ : Option ValueDataType) (max_ : Option ValueDataType)
  | blob (common : SubmodelElementData) (value : Option (List Nat)) (mime_type : String)
  | file (common : SubmodelElementData) (value : Option String) (mime_type : String)
  | referenceElement (common : SubmodelElementData) (value : Option Reference)
  | submodelElementCollectionOrdered (common : SubmodelElementData)
      (value : List SubmodelElement)
  | submodelElementCollectionUnordered (common : SubmodelElementData)
      (value : List SubmodelElement)
  | relationshipElement (common : SubmodelElementData) (first : Reference)
      (second : Reference)
  | annotatedRelationshipElement (common : SubmodelElementData) (first : Reference)
      (second : Reference) (annotations : List Reference)
  | operationVariable (common : SubmodelElementData) (value : SubmodelElement)
  | operation (common : SubmodelElementData) (input_variable : List SubmodelElement)
      (output_variable : List SubmodelElement) (in_output_variable : List SubmodelElement)
  | capability (common : SubmodelElementData)
  | entity (common : SubmodelElementData) (entity_type : EntityType)
      (statement : List SubmodelElement) (asset : Option Reference)
  | basicEvent (common : SubmodelElementData) (observed : Reference)

/-- The common attribute block of an element. -/
def SubmodelElement.common : SubmodelElement → SubmodelElementData
  | .property cm _ _ _ => cm
  | .multiLanguageProperty cm _ _ => cm
  | .range cm _ _ _ => cm
  | .blob cm _ _ => cm
  | .file cm _ _ => cm
  | .referenceElement cm _ => cm
  | .submodelElementCollectionOrdered cm _ => cm
  | .submodelElementCollectionUnordered cm _ => cm
  | .relationshipElement cm _ _ => cm
  | .annotatedRelationshipElement cm _ _ _ => cm
  | .operationVariable cm _ => cm
  | .operation cm _ _ _ => cm
  | .capability cm => cm
  | .entity cm _ _ _ => cm
  | .basicEvent cm _ => cm

/-- The `id_short` attribute of an element (from `base.Referable`). -/
def SubmodelElement.id_short (e : SubmodelElement) : String :=
  e.common.id_short

/-- The `semantic_id` attribute of an element (from `base.HasSemantics`). -/
def SubmodelElement.semantic_id (e : SubmodelElement) : Option Reference :=
  e.common.semantic_id

/-- The `kind` attribute of an element (from `base.HasKind`). -/
def SubmodelElement.kind (e : SubmodelElement) : ModelingKind :=
  e.common.kind

/-- The Python class name of an element variant. -/
def SubmodelElement.className : SubmodelElement → String
  | .property _ _ _ _ => "Property"
  | .multiLanguageProperty _ _ _ => "MultiLanguageProperty"
  | .range _ _ _ _ => "Range"
  | .blob _ _ _ => "Blob"
  | .file _ _ _ => "File"
  | .referenceElement _ _ => "ReferenceElement"
  | .submodelElementCollectionOrdered _ _ => "SubmodelElementCollectionOrdered"
  | .submodelElementCollectionUnordered _ _ => "SubmodelElementCollectionUnordered"
  | .relationshipElement _ _ _ => "RelationshipElement"
  | .annotatedRelationshipElement _ _ _ _ => "AnnotatedRelationshipElement"
  | .operationVariable _ _ => "OperationVariable"
  | .operation _ _ _ _ => "Operation"
  | .capability _ => "Capability"
  | .entity _ _ _ _ => "Entity"
  | .basicEvent _ _ => "BasicEvent"

/-- Embedding of `Submodel.__init__` field assignment (src/aas/model/submodel.py:62-120):
an Identifiable, namespace-owning container of submodel elements. -/
structure Submodel where
  identification : Identifier
  submodel_element : List SubmodelElement
  id_short : String
  category : Option String
  description : Option LangStringSet
  parent : Option Unit
  administration : Option AdministrativeInformation
  data_specification : List Reference
  semantic_id : Option Reference
  qualifier : List Qualifier
  kind : ModelingKind

/-- Error taxonomy of the spec (§7): NotFound, DuplicateKey (with the conflicting
attribute name and value), ConstraintViolation, TypeMismatch. -/
inductive AASError where
  | NotFound (msg : String)
  | DuplicateKey (attr : String) (value : String)
  | ConstraintViolation (msg : String)
  | TypeMismatch (msg : String)
deriving DecidableEq

/-- Shallow embedding of `SubmodelElement.__init__` (src/aas/model/submodel.py:19-59):
assigns the common attributes, replacing a missing (None) set argument by the empty set. -/
def SubmodelElement.initCommon (id_short : String) (category : Option String)
    (description : Option LangStringSet) (parent : Option Unit)
    (data_specification : Option (List Reference)) (semantic_id : Option Reference)
    (qualifier : Option (List Qualifier)) (kind : ModelingKind) : SubmodelElementData :=
  { id_short := id_short
    category := category
    description := description
    parent := parent
    data_specification := data_specification.getD []
    semantic_id := semantic_id
    qualifier := qualifier.getD []
    kind := kind }

/-- Shallow embedding of `Property.__init__` (src/aas/model/submodel.py:175-215): assigns
the common attributes and then `value_type`, `value`, `value_id`; no check, never raises. -/
def Property.init (id_short : String) (value_type : DataTypeDef)
    (value : Option ValueDataType) (value_id : Option Reference) (category : Option String)
    (description : Option LangStringSet) (parent : Option Unit)
    (data_specification : Option (List Reference)) (semantic_id : Option Reference)
    (qualifier : Option (List Qualifier)) (kind : ModelingKind) :
    Except AASError SubmodelElement :=
  Except.ok (SubmodelElement.property
    (SubmodelElement.initCommon id_short category description parent data_specification
      semantic_id qualifier kind)
    value_type value value_id)

/-- Shallow embedding of `Range.__init__` (src/aas/model/submodel.py:280-322): the body
assigns the common attributes and then `value_type`, `min_`, `max_`.  It contains no
constraint check whatsoever (constraint AASd-013 is only stated in the docstring), so it
can never raise and the embedding always returns `Except.ok`. -/
def Range.init (id_short : String) (value_type : DataTypeDef) (min_ : Option ValueDataType)
    (max_ : Option ValueDataType) (category : Option String)
    (description : Option LangStringSet) (parent : Option Unit)
    (data_specification : Option (List Reference)) (semantic_id : Option Reference)
    (qualifier : Option (List Qualifier)) (kind : ModelingKind) :
    Except AASError SubmodelElement :=
  Except.ok (SubmodelElement.range
    (SubmodelElement.initCommon id_short category description parent data_specification
      semantic_id qualifier kind)
    value_type min_ max_)

/-- Plain attribute write `range.min_ = v`: in src the bound is an ordinary attribute
(no property setter, no re-validation), so the assignment always succeeds on a Range. -/
def Range.set_min (e : SubmodelElement) (v : Option ValueDataType) :
    Except AASError SubmodelElement :=
  match e with
  | SubmodelElement.range cm vt _ mx => Except.ok (SubmodelElement.range cm vt v mx)
  | _ => Except.error (AASError.TypeMismatch "not a Range")

/-- Plain attribute write `range.max_ = v` (same remark as for `Range.set_min`). -/
def Range.set_max (e : SubmodelElement) (v : Option ValueDataType) :
    Except AASError SubmodelElement :=
  match e with
  | SubmodelElement.range cm vt mn _ => Except.ok (SubmodelElement.range cm vt mn v)
  | _ => Except.error (AASError.TypeMismatch "not a Range")

/-- Shallow embedding of `Entity.__init__` (src/aas/model/submodel.py:857-897): the body
assigns the common attributes and then `entity_type`, `statement` (defaulted to the empty
set) and `asset`.  It contains no management-type check (constraint AASd-014 is only
stated in the docstring), so it can never raise. -/
def Entity.init (id_short : String) (entity_type : EntityType)
    (statement : Option (List SubmodelElement)) (asset : Option Reference)
    (category : Option String) (description : Option LangStringSet) (parent : Option Unit)
    (data_specification : Option (List Reference)) (semantic_id : Option Reference)
    (qualifier : Option (List Qualifier)) (kind : ModelingKind) :
    Except AASError SubmodelElement :=
  Except.ok (SubmodelElement.entity
    (SubmodelElement.initCommon id_short category description parent data_specification
      semantic_id qualifier kind)
    entity_type (statement.getD []) asset)

/-- Shallow embedding of `OperationVariable.__init__` (src/aas/model/submodel.py:716-751):
the constructor takes no `kind` parameter; it calls the superclass initializer with
`ModelingKind.TEMPLATE`, re-assigns `self.kind = TEMPLATE` (a redundant write to the
OperationVariable's own kind), and stores the wrapped `value` element unchanged — the
wrapped element's `kind` attribute is not touched and nothing is raised. -/
def OperationVariable.init (id_short : String) (value : SubmodelElement)
    (category : Option String) (description : Option LangStringSet) (parent : Option Unit)
    (data_specification : Option (List Reference)) (semantic_id : Option Reference)
    (qualifier : Option (List Qualifier)) : Except AASError SubmodelElement :=
  Except.ok (SubmodelElement.operationVariable
    (SubmodelElement.initCommon id_short category description parent data_specification
      semantic_id qualifier ModelingKind.TEMPLATE)
    value)

/-- The `kind` of the element wrapped by a constructed OperationVariable, when the
construction succeeded and produced an OperationVariable. -/
def opVarWrappedKind (r : Except AASError SubmodelElement) : Option ModelingKind :=
  match r with
  | Except.ok (SubmodelElement.operationVariable _ v) => some v.common.kind
  | _ => none

/-- The `kind` of a constructed element itself, when construction succeeded. -/
def resultKind (r : Except AASError SubmodelElement) : Option ModelingKind :=
  match r with
  | Except.ok e => some e.common.kind
  | _ => none

/-- Render of an optional semantic-id Reference, used as the conflicting value carried by
a DuplicateKey error (the concrete rendering is immaterial to every property proved). -/
def renderOptReference : Option Reference → String
  | none => "None"
  | some r => "Reference(" ++ String.intercalate "," (r.key.map (fun k => k.value)) ++ ")"

/-- Modelled from the spec: the uniqueness-enforcing child collection of a Namespace
(`base.NamespaceSet`, not among the sources).  Spec §4.2: inserting a child checks, in
this order, (a) `id_short` not already present among siblings and, for collections
configured `allow_duplicates=False`, (b) `semantic_id` not already present among
siblings; on violation it fails with DuplicateKey carrying the conflicting attribute
name and value and performs no insertion. -/
structure NamespaceSet where
  allow_duplicates : Bool
  elements : List SubmodelElement

/-- Modelled from the spec: `NamespaceSet.add` — atomic check-then-insert (§4.2). -/
def NamespaceSet.add (ns : NamespaceSet) (x : SubmodelElement) :
    Except AASError NamespaceSet :=
  if ns.elements.any (fun e => decide (e.id_short = x.id_short)) then
    Except.error (AASError.DuplicateKey "id_short" x.id_short)
  else if !ns.allow_duplicates
      && ns.elements.any (fun e => decide (e.semantic_id = x.semantic_id)) then
    Except.error (AASError.DuplicateKey "semantic_id" (renderOptReference x.semantic_id))
  else
    Except.ok { allow_duplicates := ns.allow_duplicates, elements := ns.elements ++ [x] }

/-- Modelled from the spec: an Identifiable root object (`base.Identifiable`, not among
the sources) as stored in an object store.  `payload` stands for the remaining object
state, so that two distinct objects carrying the same Identifier can be told apart and
"returns the very same object" is expressible as equality of the stored value. -/
structure Identifiable where
  identification : Identifier
  payload : Nat
deriving DecidableEq

/-- Modelled from the spec: `DictObjectStore` (§4.4) — an identity-indexed collection,
a mapping from Identifier to Identifiable with unique keys. -/
structure DictObjectStore where
  entries : List (Identifier × Identifiable)
deriving DecidableEq

/-- Modelled from the spec: `get(identifier)` fails with NotFound if absent (§4.4). -/
def DictObjectStore.get (s : DictObjectStore) (k : Identifier) :
    Except AASError Identifiable :=
  match s.entries.find? (fun e => decide (e.1 = k)) with
  | some e => Except.ok e.2
  | none => Except.error (AASError.NotFound "Identifiable not found in store")

/-- Modelled from the spec: `add(identifiable)` fails with DuplicateKey if an object with
the same Identifier already exists (§4.4). -/
def DictObjectStore.add (s : DictObjectStore) (x : Identifiable) :
    Except AASError DictObjectStore :=
  if s.entries.any (fun e => decide (e.1 = x.identification)) then
    Except.error (AASError.DuplicateKey "identification" (strOfBytes x.identification.id))
  else
    Except.ok { entries := s.entries ++ [(x.identification, x)] }

/-- Modelled from the spec: `remove(identifier)` fails with NotFound if absent (§4.4). -/
def DictObjectStore.remove (s : DictObjectStore) (k : Identifier) :
    Except AASError DictObjectStore :=
  if s.entries.any (fun e => decide (e.1 = k)) then
    Except.ok { entries := s.entries.filter (fun e => decide (e.1 ≠ k)) }
  else
    Except.error (AASError.NotFound "Identifiable not found in store")

/-- Composition `remove` then `get` on the same key (the round-trip step of §8). -/
def DictObjectStore.removeThenGet (s : DictObjectStore) (k : Identifier) :
    Except AASError Identifiable :=
  match s.remove k with
  | Except.ok s' => s'.get k
  | Except.error e => Except.error e

/-- Lookup of a key along an ordered list of stores, first match wins. -/
def multiplexerLookup (k : Identifier) : List DictObjectStore → Except AASError Identifiable
  | [] => Except.error (AASError.NotFound "Identifiable not found in any registry")
  | s :: rest =>
    match s.get k with
    | Except.ok v => Except.ok v
    | Except.error _ => multiplexerLookup k rest

/-- Modelled from the spec: `RegistryMultiplexer` (§4.4) — composes an ordered list of
stores and forwards `get` to the first store containing the key, searching in list
order; no add/remove operations are defined on it (read-only composition). -/
structure RegistryMultiplexer where
  registries : List DictObjectStore

/-- Modelled from the spec: multiplexer `get` — first-match-wins lookup (§4.4). -/
def RegistryMultiplexer.get (m : RegistryMultiplexer) (k : Identifier) :
    Except AASError Identifiable :=
  multiplexerLookup k m.registries

/-- One recorded check of the data checker: the human-readable rule (which names the
subject type and subject path), the boolean outcome, and the labelled actual values. -/
structure CheckResult where
  expectation : String
  result : Bool
  data : List (String × String)
deriving DecidableEq

/-- The failure raised in raise-immediately mode: it carries the same expectation text
(prefixed as in the AssertionError) and the same labelled data as the failure record. -/
structure CheckError where
  message : String
  data : List (String × String)
deriving DecidableEq

/-- Modelled from the spec: `DataChecker` (`examples/data/_helper.py`, not among the
sources, §4.5): it accumulates labelled check records; in `raise_immediately` mode a
failing check raises synchronously instead (message format follows the expected strings
of src/test/examples/test_helpers.py: AssertionError("Check failed: " + expectation,
kwargs)). -/
structure DataChecker where
  raise_immediately : Bool
  checks : List CheckResult
deriving DecidableEq

/-- Modelled from the spec: `DataChecker.check(expression, expectation, **kwargs)` —
records the check; when the expression is false and raise-immediately is set, it raises
with the same message the record carries. -/
def DataChecker.check (c : DataChecker) (expression : Bool) (expectation : String)
    (kwargs : List (String × String)) : Except CheckError DataChecker :=
  if !expression && c.raise_immediately then
    Except.error { message := "Check failed: " ++ expectation, data := kwargs }
  else
    Except.ok { raise_immediately := c.raise_immediately
                checks := c.checks ++ [{ expectation := expectation, result := expression,
                                         data := kwargs }] }

/-- Modelled from the spec: `DataChecker.failed_checks` — the recorded mismatches. -/
def DataChecker.failed_checks (c : DataChecker) : List CheckResult :=
  c.checks.filter (fun r => !r.result)

/-- Modelled from the spec: `DataChecker.successful_checks`. -/
def DataChecker.successful_checks (c : DataChecker) : List CheckResult :=
  c.checks.filter (fun r => r.result)

/-- One pending comparison: the boolean outcome of the compared condition, the
human-readable rule, and the labelled actual values to record with it. -/
structure ChkItem where
  outcome : Bool
  expectation : String
  data : List (String × String)
deriving DecidableEq

/-- The failure record a pending comparison produces. -/
def ChkItem.record (i : ChkItem) : CheckResult :=
  { expectation := i.expectation, result := i.outcome, data := i.data }

/-- Run a sequence of comparisons through `DataChecker.check`, stopping at the first
raised failure (which only happens in raise-immediately mode). -/
def DataChecker.runChecks (c : DataChecker) : List ChkItem → Except CheckError DataChecker
  | [] => Except.ok c
  | i :: rest =>
    match c.check i.outcome i.expectation i.data with
    | Except.ok c' => c'.runChecks rest
    | Except.error e => Except.error e

/-- Name of an IdentifierType, as it appears inside an Identifier repr. -/
def idTypeName : IdentifierType → String
  | IdentifierType.IRDI => "IRDI"
  | IdentifierType.IRI => "IRI"
  | IdentifierType.CUSTOM => "CUSTOM"

/-- Repr of an Identifier as used in checker subject paths, e.g. `Identifier(CUSTOM=test)`
(format taken from src/test/examples/test_helpers.py). -/
def Identifier.render (i : Identifier) : String :=
  "Identifier(" ++ idTypeName i.id_type ++ "=" ++ strOfBytes i.id ++ ")"

/-- Repr of a recorded check, `FAIL: <expectation> (<key>=<value>, ...)`, the format the
repository's tests assert on `failed_checks` entries. -/
def CheckResult.render (r : CheckResult) : String :=
  (if r.result then "PASS: " else "FAIL: ") ++ r.expectation ++ " ("
    ++ String.intercalate ", " (r.data.map (fun p => p.1 ++ "=" ++ p.2)) ++ ")"

/-- Comparison of one attribute of a subject against its expected value. -/
def attrItem (outcome : Bool) (name : String) (rep : String) : ChkItem :=
  { outcome := outcome
    expectation := "attribute " ++ name ++ " of " ++ rep ++ " must match the expected value"
    data := [] }

/-- Comparisons of a qualifiable subject's constraint set against the expected set: one
count comparison and, per expected qualifier, an existence comparison by `type` followed
(when found) by a value comparison (message formats follow the expected strings of
src/test/examples/test_helpers.py). -/
def qualifierItems (qa qx : List Qualifier) (rep : String) : List ChkItem :=
  { outcome := decide (qa.length = qx.length)
    expectation := rep ++ " must contain " ++ toString qx.length ++ " Constraints"
    data := [("count", toString qa.length)] }
  :: (qx.map (fun q =>
      match qa.find? (fun p => decide (p.type_ = q.type_)) with
      | none =>
        [({ outcome := false
            expectation := "ConstraintQualifier(type=" ++ q.type_ ++ ") must exist"
            data := [] } : ChkItem)]
      | some p =>
        [({ outcome := true
            expectation := "ConstraintQualifier(type=" ++ q.type_ ++ ") must exist"
            data := [] } : ChkItem),
         ({ outcome := decide (p = q)
            expectation := "ConstraintQualifier(type=" ++ q.type_
              ++ ") must have the expected value"
            data := [] } : ChkItem)])).flatten

/-- Comparisons of the common attribute block of two same-class elements. -/
def commonItems (a x : SubmodelElementData) (rep : String) : List ChkItem :=
  [attrItem (decide (a.id_short = x.id_short)) "id_short" rep,
   attrItem (decide (a.category = x.category)) "category" rep,
   attrItem (decide (a.description = x.description)) "description" rep,
   attrItem (decide (a.kind = x.kind)) "kind" rep,
   attrItem (decide (a.semantic_id = x.semantic_id)) "semantic_id" rep]
  ++ qualifierItems a.qualifier x.qualifier rep

/-- Count comparison for a contained-element collection, e.g.
`<rep> must contain 1 SubmodelElements (count=0)`. -/
def countItem (actualLen expectedLen : Nat) (rep : String) (label : String) : ChkItem :=
  { outcome := decide (actualLen = expectedLen)
    expectation := rep ++ " must contain " ++ toString expectedLen ++ " " ++ label
    data := [("count", toString actualLen)] }

/-- The non-recursive attribute comparisons of two same-class elements (comparisons of
child elements are generated by the recursive checker below). -/
def leafItems (a x : SubmodelElement) (rep : String) : List ChkItem :=
  match a, x with
  | SubmodelElement.property ca vta va ia, SubmodelElement.property cx vtx vx ix =>
    commonItems ca cx rep
      ++ [attrItem (decide (vta = vtx)) "value_type" rep,
          attrItem (decide (va = vx)) "value" rep,
          attrItem (decide (ia = ix)) "value_id" rep]
  | SubmodelElement.multiLanguageProperty ca va ia,
      SubmodelElement.multiLanguageProperty cx vx ix =>
    commonItems ca cx rep
      ++ [attrItem (decide (va = vx)) "value" rep,
          attrItem (decide (ia = ix)) "value_id" rep]
  | SubmodelElement.range ca vta mna mxa, SubmodelElement.range cx vtx mnx mxx =>
    commonItems ca cx rep
      ++ [attrItem (decide (vta = vtx)) "value_type" rep,
          attrItem (decide (mna = mnx)) "min" rep,
          attrItem (decide (mxa = mxx)) "max" rep]
  | SubmodelElement.blob ca va ma, SubmodelElement.blob cx vx mx =>
    commonItems ca cx rep
      ++ [attrItem (decide (va = vx)) "value" rep,
          attrItem (decide (ma = mx)) "mime_type" rep]
  | SubmodelElement.file ca va ma, SubmodelElement.file cx vx mx =>
    commonItems ca cx rep
      ++ [attrItem (decide (va = vx)) "value" rep,
          attrItem (decide (ma = mx)) "mime_type" rep]
  | SubmodelElement.referenceElement ca va, SubmodelElement.referenceElement cx vx =>
    commonItems ca cx rep ++ [attrItem (decide (va = vx)) "value" rep]
  | SubmodelElement.submodelElementCollectionOrdered ca va,
      SubmodelElement.submodelElementCollectionOrdered cx vx =>
    commonItems ca cx rep ++ [countItem va.length vx.length rep "SubmodelElements"]
  | SubmodelElement.submodelElementCollectionUnordered ca va,
      SubmodelElement.submodelElementCollectionUnordered cx vx =>
    commonItems ca cx rep ++ [countItem va.length vx.length rep "SubmodelElements"]
  | SubmodelElement.relationshipElement ca fa sa, SubmodelElement.relationshipElement cx fx sx =>
    commonItems ca cx rep
      ++ [attrItem (decide (fa = fx)) "first" rep,
          attrItem (decide (sa = sx)) "second" rep]
  | SubmodelElement.annotatedRelationshipElement ca fa sa na,
      SubmodelElement.annotatedRelationshipElement cx fx sx nx =>
    commonItems ca cx rep
      ++ [attrItem (decide (fa = fx)) "first" rep,
          attrItem (decide (sa = sx)) "second" rep,
          countItem na.length nx.length rep "DataElements"]
      ++ nx.map (fun r =>
          { outcome := decide (r ∈ na)
            expectation := "Annotation " ++ renderOptReference (some r) ++ " must exist"
            data := [] })
  | SubmodelElement.operationVariable ca _, SubmodelElement.operationVariable cx _ =>
    commonItems ca cx rep
  | SubmodelElement.operation ca ia oa ioa, SubmodelElement.operation cx ix ox iox =>
    commonItems ca cx rep
      ++ [countItem ia.length ix.length rep "input variables",
          countItem oa.length ox.length rep "output variables",
          countItem ioa.length iox.length rep "in-output variables"]
  | SubmodelElement.capability ca, SubmodelElement.capability cx =>
    commonItems ca cx rep
  | SubmodelElement.entity ca ta sa aa, SubmodelElement.entity cx tx sx ax =>
    commonItems ca cx rep
      ++ [attrItem (decide (ta = tx)) "entity_type" rep,
          attrItem (decide (aa = ax)) "asset" rep,
          countItem sa.length sx.length rep "Statements"]
  | SubmodelElement.basicEvent ca oa, SubmodelElement.basicEvent cx ox =>
    commonItems ca cx rep ++ [attrItem (decide (oa = ox)) "observed" rep]
  | _, _ => []

/-- The non-recursive comparisons of a dispatched element pair: the class comparison
followed, when the classes agree, by the attribute comparisons; on a class mismatch only
the class failure is recorded and the attributes are skipped. -/
def dispatchItems (a x : SubmodelElement) (rep : String) : List ChkItem :=
  { outcome := decide (a.className = x.className)
    expectation := rep ++ " must be of class " ++ x.className
    data := [("class", a.className)] }
  :: (if a.className = x.className then leafItems a x rep else [])

mutual

/-- Modelled from the spec: the recursive element comparison of `AASDataChecker`
(`examples/data/_helper.py`, not among the sources, §4.5).  `path` is the subject path of
the element being checked (the repr the Python code derives from the parent chain, e.g.
`Identifier(CUSTOM=test) / Prop1`).  It first compares the classes; on a class mismatch
only that failure is recorded; otherwise every declared attribute is compared and the
child collections are compared recursively. -/
def AASDataChecker.check_submodel_element_equal (c : DataChecker) (a x : SubmodelElement)
    (path : String) : Except CheckError DataChecker :=
  let rep := a.className ++ "[" ++ path ++ "]"
  match c.runChecks (dispatchItems a x rep) with
  | Except.error e => Except.error e
  | Except.ok c1 =>
    match a with
    | SubmodelElement.submodelElementCollectionOrdered _ va =>
      match x with
      | SubmodelElement.submodelElementCollectionOrdered _ vx =>
        AASDataChecker.checkChildrenOrdered c1 va vx path
      | _ => Except.ok c1
    | SubmodelElement.submodelElementCollectionUnordered _ va =>
      match x with
      | SubmodelElement.submodelElementCollectionUnordered _ vx =>
        AASDataChecker.checkChildrenById c1 va vx path
      | _ => Except.ok c1
    | SubmodelElement.operationVariable _ va =>
      match x with
      | SubmodelElement.operationVariable _ vx =>
        AASDataChecker.check_submodel_element_equal c1 va vx (path ++ " / " ++ va.id_short)
      | _ => Except.ok c1
    | SubmodelElement.operation _ ia oa ioa =>
      match x with
      | SubmodelElement.operation _ ix ox iox =>
        match AASDataChecker.checkChildrenById c1 ia ix path with
        | Except.error e => Except.error e
        | Except.ok c2 =>
          match AASDataChecker.checkChildrenById c2 oa ox path with
          | Except.error e => Except.error e
          | Except.ok c3 => AASDataChecker.checkChildrenById c3 ioa iox path
      | _ => Except.ok c1
    | SubmodelElement.entity _ _ sa _ =>
      match x with
      | SubmodelElement.entity _ _ sx _ =>
        AASDataChecker.checkChildrenById c1 sa sx path
      | _ => Except.ok c1
    | _ => Except.ok c1
termination_by sizeOf x

/-- Modelled from the spec: comparison of an unordered child collection — children are
matched by the identity key `id_short`; per expected child an existence check is
recorded (`Submodel Element<repr> must exist`, format from the repository's tests) and,
when present, the pair is compared recursively. -/
def AASDataChecker.checkChildrenById (c : DataChecker)
    (actuals : List SubmodelElement) (es : List SubmodelElement) (path : String) :
    Except CheckError DataChecker :=
  match es with
  | [] => Except.ok c
  | x :: rest =>
    let childPath := path ++ " / " ++ x.id_short
    let existMsg := "Submodel Element" ++ x.className ++ "[" ++ childPath ++ "] must exist"
    match actuals.find? (fun a => decide (a.id_short = x.id_short)) with
    | none =>
      match c.check false existMsg [] with
      | Except.error e => Except.error e
      | Except.ok c' => AASDataChecker.checkChildrenById c' actuals rest path
    | some a =>
      match c.check true existMsg [] with
      | Except.error e => Except.error e
      | Except.ok c' =>
        match AASDataChecker.check_submodel_element_equal c' a x childPath with
        | Except.error e => Except.error e
        | Except.ok c'' => AASDataChecker.checkChildrenById c'' actuals rest path
termination_by sizeOf es

/-- Modelled from the spec: comparison of an ordered child collection — children are
compared positionally (value and positional mismatches surface as class or attribute
failures of the positional pairs). -/
def AASDataChecker.checkChildrenOrdered (c : DataChecker)
    (actuals : List SubmodelElement) (es : List SubmodelElement) (path : String) :
    Except CheckError DataChecker :=
  match actuals, es with
  | a :: as_, x :: rest =>
    match AASDataChecker.check_submodel_element_equal c a x (path ++ " / " ++ a.id_short) with
    | Except.error e => Except.error e
    | Except.ok c' => AASDataChecker.checkChildrenOrdered c' as_ rest path
  | _, _ => Except.ok c
termination_by sizeOf es

end

/-- The non-recursive attribute comparisons of two Submodels sharing an identification. -/
def submodelLeafItems (o e : Submodel) (rep : String) : List ChkItem :=
  [attrItem (decide (o.identification = e.identification)) "identification" rep,
   attrItem (decide (o.id_short = e.id_short)) "id_short" rep,
   attrItem (decide (o.category = e.category)) "category" rep,
   attrItem (decide (o.description = e.description)) "description" rep,
   attrItem (decide (o.kind = e.kind)) "kind" rep,
   attrItem (decide (o.semantic_id = e.semantic_id)) "semantic_id" rep]
  ++ qualifierItems o.qualifier e.qualifier rep
  ++ [countItem o.submodel_element.length e.submodel_element.length rep "SubmodelElements"]

/-- Modelled from the spec: `AASDataChecker.check_submodel_equal` (§4.5) — compares the
declared attributes of the two Submodels, the contained-element count, and the children
matched by `id_short` (message formats follow src/test/examples/test_helpers.py). -/
def AASDataChecker.check_submodel_equal (c : DataChecker) (o e : Submodel) :
    Except CheckError DataChecker :=
  let path := o.identification.render
  let rep := "Submodel[" ++ path ++ "]"
  match c.runChecks (submodelLeafItems o e rep) with
  | Except.error er => Except.error er
  | Except.ok c1 => AASDataChecker.checkChildrenById c1 o.submodel_element e.submodel_element path

/-- Byte classes that `werkzeug.urls.url_quote` never percent-encodes (its always-safe
set: ASCII letters, digits, underscore, dot, dash, tilde); with `safe=""` every other
byte is percent-encoded. -/
def alwaysSafeByte (b : Nat) : Bool :=
  (65 ≤ b && b ≤ 90) || (97 ≤ b && b ≤ 122) || (48 ≤ b && b ≤ 57)
    || b == 95 || b == 46 || b == 45 || b == 126

/-- Upper-case hex digit of a value below 16. -/
def hexDigitUpper (n : Nat) : Char :=
  if n < 10 then Char.ofNat (48 + n) else Char.ofNat (65 + (n - 10))

/-- Percent-encoding of one byte under `safe=""`. -/
def quoteByte (b : Nat) : List Char :=
  if alwaysSafeByte b then [Char.ofNat b]
  else ['%', hexDigitUpper (b / 16), hexDigitUpper (b % 16)]

/-- Embedding of `werkzeug.urls.url_quote(s, safe="")` on the UTF-8 bytes of `s`. -/
def url_quote (bs : List Nat) : List Char :=
  (bs.map quoteByte).flatten

/-- Value of a hex digit character, upper or lower case. -/
def hexVal (c : Char) : Option Nat :=
  if 48 ≤ c.toNat && c.toNat ≤ 57 then some (c.toNat - 48)
  else if 65 ≤ c.toNat && c.toNat ≤ 70 then some (c.toNat - 55)
  else if 97 ≤ c.toNat && c.toNat ≤ 102 then some (c.toNat - 87)
  else none

/-- Embedding of `werkzeug.urls.url_unquote`: a percent-escape with two hex digits is
decoded to its byte, every other character passes through as its own code (the precise
passthrough shape of malformed escapes is immaterial here: `url_quote` only ever emits
well-formed upper-case escapes, so that branch is unreachable on quoted input). -/
def url_unquote : List Char → List Nat
  | [] => []
  | c :: rest =>
    if c = '%' then
      match rest with
      | [] => [37]
      | [c1] => [37, c1.toNat]
      | c1 :: c2 :: rest' =>
        match hexVal c1, hexVal c2 with
        | some h, some l => (16 * h + l) :: url_unquote rest'
        | _, _ => 37 :: c1.toNat :: c2.toNat :: url_unquote rest'
    else c.toNat :: url_unquote rest

/-- Modelled from the spec: the adapter's `IDENTIFIER_TYPES` table (`adapter/_generic.py`,
not among the sources) — a distinct, colon-free name per IdentifierType. -/
def IDENTIFIER_TYPES : IdentifierType → String
  | IdentifierType.IRDI => "IRDI"
  | IdentifierType.IRI => "IRI"
  | IdentifierType.CUSTOM => "Custom"

/-- Modelled from the spec: the inverse table `IDENTIFIER_TYPES_INVERSE`. -/
def IDENTIFIER_TYPES_INVERSE (s : String) : Option IdentifierType :=
  if s = "IRDI" then some IdentifierType.IRDI
  else if s = "IRI" then some IdentifierType.IRI
  else if s = "Custom" then some IdentifierType.CUSTOM
  else none

/-- Shallow embedding of `identifier_uri_encode` (src/basyx/aas/adapter/http.py:274-275):
the id-type name, a colon, and the percent-quoted id (no safe characters). -/
def identifier_uri_encode (i : Identifier) : List Char :=
  (IDENTIFIER_TYPES i.id_type).data ++ [':'] ++ url_quote i.id

/-- Embedding of Python `id_str.split(":", 1)`: `none` when no colon occurs (in which
case the tuple unpacking in the source raises ValueError). -/
def splitOnceColon : List Char → Option (List Char × List Char)
  | [] => none
  | c :: rest =>
    if c = ':' then some ([], rest)
    else
      match splitOnceColon rest with
      | some (a, b) => some (c :: a, b)
      | none => none

/-- Shallow embedding of `identifier_uri_decode` (src/basyx/aas/adapter/http.py:278-286):
split on the first colon, look the id-type name up in the inverse table, unquote the id. -/
def identifier_uri_decode (s : List Char) : Except String Identifier :=
  match splitOnceColon s with
  | none => Except.error "Identifier is not of format ID_TYPE:ID"
  | some (t, idPart) =>
    match IDENTIFIER_TYPES_INVERSE (String.mk t) with
    | none => Except.error "IdentifierType is invalid"
    | some ty => Except.ok { id := url_unquote idPart, id_type := ty }

/-- The wrapped element of an OperationVariable variant. -/
def SubmodelElement.opVarValue : SubmodelElement → Option SubmodelElement
  | SubmodelElement.operationVariable _ v => some v
  | _ => none

/-- The failed-check records of a finished comparison (`none` when it raised). -/
def failedOf (r : Except CheckError DataChecker) : Option (List CheckResult) :=
  match r with
  | Except.ok c => some c.failed_checks
  | Except.error _ => none

/-- The result of a comparison step that neither raises nor records any failure: it
extends the incoming checker by passing records only, preserving the mode. -/
def okPassing (c : DataChecker) (r : Except CheckError DataChecker) : Prop :=
  ∃ rs : List CheckResult,
    r = Except.ok { raise_immediately := c.raise_immediately, checks := c.checks ++ rs }
      ∧ ∀ x ∈ rs, x.result = true

/-- Does the character list start with the given needle. -/
def charsLeads : List Char → List Char → Bool
  | _, [] => true
  | [], _ :: _ => false
  | h :: hs, n :: ns => h == n && charsLeads hs ns

/-- Does the character list contain the needle as a contiguous segment. -/
def charsHasSub : List Char → List Char → Bool
  | [], needle => needle.isEmpty
  | h :: hs, needle => charsLeads (h :: hs) needle || charsHasSub hs needle

/-- Does the string contain the needle as a contiguous substring. -/
def strContainsSub (hay needle : String) : Bool :=
  charsHasSub hay.data needle.data

/-- Are the constraint types of a qualifier set pairwise distinct (the invariant the
qualifier namespace of a Qualifiable enforces on insertion). -/
def qualifierTypesNodupB : List Qualifier → Bool
  | [] => true
  | q :: rest =>
    !(rest.any (fun p => decide (p.type_ = q.type_))) && qualifierTypesNodupB rest

/-- Are the id_shorts of a child list pairwise distinct (the invariant a Namespace child
collection enforces on insertion). -/
def idShortsNodupB : List SubmodelElement → Bool
  | [] => true
  | e :: rest =>
    !(rest.any (fun f => decide (f.id_short = e.id_short))) && idShortsNodupB rest

/-- Well-formedness of a common attribute block: distinct qualifier types. -/
def wfCommonB (cm : SubmodelElementData) : Bool :=
  qualifierTypesNodupB cm.qualifier

mutual

/-- Well-formedness of an element as the Namespace containers of the code maintain it:
qualifier types are distinct within every qualifiable, and the children of every
unordered (id_short-keyed) child collection have distinct id_shorts. -/
def wfElement : SubmodelElement → Bool
  | SubmodelElement.property cm _ _ _ => wfCommonB cm
  | SubmodelElement.multiLanguageProperty cm _ _ => wfCommonB cm
  | SubmodelElement.range cm _ _ _ => wfCommonB cm
  | SubmodelElement.blob cm _ _ => wfCommonB cm
  | SubmodelElement.file cm _ _ => wfCommonB cm
  | SubmodelElement.referenceElement cm _ => wfCommonB cm
  | SubmodelElement.submodelElementCollectionOrdered cm v => wfCommonB cm && wfElementList v
  | SubmodelElement.submodelElementCollectionUnordered cm v =>
    wfCommonB cm && idShortsNodupB v && wfElementList v
  | SubmodelElement.relationshipElement cm _ _ => wfCommonB cm
  | SubmodelElement.annotatedRelationshipElement cm _ _ _ => wfCommonB cm
  | SubmodelElement.operationVariable cm v => wfCommonB cm && wfElement v
  | SubmodelElement.operation cm i o io =>
    wfCommonB cm && idShortsNodupB i && wfElementList i && idShortsNodupB o
      && wfElementList o && idShortsNodupB io && wfElementList io
  | SubmodelElement.capability cm => wfCommonB cm
  | SubmodelElement.entity cm _ st _ => wfCommonB cm && idShortsNodupB st && wfElementList st
  | SubmodelElement.basicEvent cm _ => wfCommonB cm

/-- Well-formedness of every element of a list. -/
def wfElementList : List SubmodelElement → Bool
  | [] => true
  | e :: rest => wfElement e && wfElementList rest

end

/-- Well-formedness of a Submodel (same invariants as for elements). -/
def wfSubmodel (s : Submodel) : Bool :=
  qualifierTypesNodupB s.qualifier && idShortsNodupB s.submodel_element
    && wfElementList s.submodel_element

/-- Concrete Range constructor call of the C1 scenario: kind=Instance, both bounds None
(the input on which the claim predicts a ConstraintViolation). -/
def rangeBothNone : Except AASError SubmodelElement :=
  Range.init "test" DataTypeDef.INT none none none none none none none none
    ModelingKind.INSTANCE

/-- Concrete Entity constructor call of the C2 scenario: a SELF_MANAGED_ENTITY with no
asset identity (the first failing input of the repository's own EntityTest). -/
def entitySelfManagedNoAsset : Except AASError SubmodelElement :=
  Entity.init "Test" EntityType.SELF_MANAGED_ENTITY (some []) none none none none none
    none none ModelingKind.INSTANCE

/-- Concrete Entity constructor call of the C2 scenario: a CO_MANAGED_ENTITY carrying an
asset reference (the second failing input of the repository's own EntityTest). -/
def entityCoManagedWithAsset : Except AASError SubmodelElement :=
  Entity.init "Test" EntityType.CO_MANAGED_ENTITY (some [])
    (some { key := [{ type_ := KeyElements.GLOBAL_REFERENCE, local_ := false,
                      value := "http://acplt.org/TestAsset/", id_type := KeyType.IRI }] })
    none none none none none none ModelingKind.INSTANCE

/-- Concrete submodel element wrapped by the C3 scenario's OperationVariable: a Property
whose caller-given kind is INSTANCE (not Template). -/
def c3WrappedProperty : SubmodelElement :=
  SubmodelElement.property
    { id_short := "p", category := none, description := none, parent := none,
      data_specification := [], semantic_id := none, qualifier := [],
      kind := ModelingKind.INSTANCE }
    DataTypeDef.STRING none none

/-- First semantic id of the C4 witness scenario
(test_submodel_element_collection_unordered_unique_semantic_id). -/
def c4SemanticId1 : Reference :=
  { key := [{ type_ := KeyElements.GLOBAL_REFERENCE, local_ := false,
              value := "http://acplt.org/Test1", id_type := KeyType.IRI }] }

/-- Second semantic id of the C4 witness scenario. -/
def c4SemanticId2 : Reference :=
  { key := [{ type_ := KeyElements.GLOBAL_REFERENCE, local_ := false,
              value := "http://acplt.org/Test2", id_type := KeyType.IRI }] }

/-- Property helper of the C4 witness scenario. -/
def c4Property (id_short : String) (sem : Reference) : SubmodelElement :=
  SubmodelElement.property
    { id_short := id_short, category := none, description := none, parent := none,
      data_specification := [], semantic_id := some sem, qualifier := [],
      kind := ModelingKind.INSTANCE }
    DataTypeDef.INT (some (ValueDataType.intVal 2)) none

/-- The C4 witness collection: allow_duplicates=False, already containing
Property(test1, semantic_id1). -/
def c4Collection : NamespaceSet :=
  { allow_duplicates := false, elements := [c4Property "test1" c4SemanticId1] }

/-- First stored object of the C5 witness scenario (aas1 of RegistriesTest). -/
def c5Aas1 : Identifiable :=
  { identification := { id := strBytes "urn:x-test:aas1", id_type := IdentifierType.IRI },
    payload := 1 }

/-- Second stored object of the C5 witness scenario, sharing aas1's Identifier but
distinguishable from it (a different object with the same key). -/
def c5Aas1Clone : Identifiable :=
  { identification := { id := strBytes "urn:x-test:aas1", id_type := IdentifierType.IRI },
    payload := 2 }

/-- AAS store of the C6 witness scenario (two shells). -/
def c6AasStore : DictObjectStore :=
  { entries :=
      [({ id := strBytes "urn:x-test:aas1", id_type := IdentifierType.IRI },
        { identification := { id := strBytes "urn:x-test:aas1", id_type := IdentifierType.IRI },
          payload := 1 }),
       ({ id := strBytes "urn:x-test:aas2", id_type := IdentifierType.IRI },
        { identification := { id := strBytes "urn:x-test:aas2", id_type := IdentifierType.IRI },
          payload := 2 })] }

/-- Submodel store of the C6 witness scenario (two submodels). -/
def c6SubmodelStore : DictObjectStore :=
  { entries :=
      [({ id := strBytes "urn:x-test:submodel1", id_type := IdentifierType.IRI },
        { identification := { id := strBytes "urn:x-test:submodel1",
                              id_type := IdentifierType.IRI },
          payload := 3 }),
       ({ id := strBytes "urn:x-test:submodel2", id_type := IdentifierType.IRI },
        { identification := { id := strBytes "urn:x-test:submodel2",
                              id_type := IdentifierType.IRI },
          payload := 4 })] }

/-- Identifier of the C8 scenario's submodels. -/
def c8Identifier : Identifier :=
  { id := strBytes "test", id_type := IdentifierType.CUSTOM }

/-- The expected Property("Prop1", String, "test") of the C8 scenario. -/
def c8Property : SubmodelElement :=
  SubmodelElement.property
    { id_short := "Prop1", category := none, description := none, parent := none,
      data_specification := [], semantic_id := none, qualifier := [],
      kind := ModelingKind.INSTANCE }
    DataTypeDef.STRING (some (ValueDataType.strVal "test")) none

/-- The empty actual Submodel of the C8 scenario. -/
def c8ActualSubmodel : Submodel :=
  { identification := c8Identifier, submodel_element := [], id_short := "",
    category := none, description := none, parent := none, administration := none,
    data_specification := [], semantic_id := none, qualifier := [],
    kind := ModelingKind.INSTANCE }

/-- The expected Submodel of the C8 scenario: same identification, one Property. -/
def c8ExpectedSubmodel : Submodel :=
  { c8ActualSubmodel with submodel_element := [c8Property] }

/-- The C8 comparison run in record (non-raising) mode. -/
def c8Result : Except CheckError DataChecker :=
  AASDataChecker.check_submodel_equal { raise_immediately := false, checks := [] }
    c8ActualSubmodel c8ExpectedSubmodel

/-- The rendered failure messages of the C8 comparison. -/
def c8FailureMessages : List String :=
  match c8Result with
  | Except.ok c => c.failed_checks.map CheckResult.render
  | Except.error _ => []

/-- The checker state after the leaf checks of the C8 comparison (the value
`runChecks (submodelLeafItems c8ActualSubmodel c8ExpectedSubmodel _)` computes to). -/
def c8Checker1 : DataChecker :=
  { raise_immediately := false,
    checks :=
      [{ expectation := "attribute identification of Submodel[Identifier(CUSTOM=test)] must match the expected value",
         result := true, data := [] },
       { expectation := "attribute id_short of Submodel[Identifier(CUSTOM=test)] must match the expected value",
         result := true, data := [] },
       { expectation := "attribute category of Submodel[Identifier(CUSTOM=test)] must match the expected value",
         result := true, data := [] },
       { expectation := "attribute description of Submodel[Identifier(CUSTOM=test)] must match the expected value",
         result := true, data := [] },
       { expectation := "attribute kind of Submodel[Identifier(CUSTOM=test)] must match the expected value",
         result := true, data := [] },
       { expectation := "attribute semantic_id of Submodel[Identifier(CUSTOM=test)] must match the expected value",
         result := true, data := [] },
       { expectation := "Submodel[Identifier(CUSTOM=test)] must contain 0 Constraints",
         result := true, data := [("count", "0")] },
       { expectation := "Submodel[Identifier(CUSTOM=test)] must contain 1 SubmodelElements",
         result := false, data := [("count", "0")] }] }

/-- The final checker state of the C8 comparison: the leaf checks plus the failed
existence check for the missing Prop1. -/
def c8Checker2 : DataChecker :=
  { c8Checker1 with
    checks := c8Checker1.checks ++
      [{ expectation := "Submodel ElementProperty[Identifier(CUSTOM=test) / Prop1] must exist",
         result := false, data := [] }] }

/-- Concrete well-formed element of the C9 witness: an unordered collection holding a
qualified Property and an ordered collection that wraps a Range and an
OperationVariable. -/
def c9Element : SubmodelElement :=
  SubmodelElement.submodelElementCollectionUnordered
    { id_short := "Coll", category := none, description := none, parent := none,
      data_specification := [], semantic_id := none, qualifier := [],
      kind := ModelingKind.INSTANCE }
    [SubmodelElement.property
       { id_short := "P1", category := none, description := none, parent := none,
         data_specification := [], semantic_id := none,
         qualifier := [{ type_ := "q1", value_type := DataTypeDef.STRING,
                         value := some (ValueDataType.strVal "v") }],
         kind := ModelingKind.INSTANCE }
       DataTypeDef.STRING (some (ValueDataType.strVal "test")) none,
     SubmodelElement.submodelElementCollectionOrdered
       { id_short := "L1", category := none, description := none, parent := none,
         data_specification := [], semantic_id := none, qualifier := [],
         kind := ModelingKind.INSTANCE }
       [SubmodelElement.range
          { id_short := "R1", category := none, description := none, parent := none,
            data_specification := [], semantic_id := none, qualifier := [],
            kind := ModelingKind.INSTANCE }
          DataTypeDef.INT (some (ValueDataType.intVal 100))
          (some (ValueDataType.intVal 200)),
        SubmodelElement.operationVariable
          { id_short := "OV", category := none, description := none, parent := none,
            data_specification := [], semantic_id := none, qualifier := [],
            kind := ModelingKind.TEMPLATE }
          (SubmodelElement.property
            { id_short := "PV", category := none, description := none, parent := none,
              data_specification := [], semantic_id := none, qualifier := [],
              kind := ModelingKind.INSTANCE }
            DataTypeDef.INT none none)]]

/-- Concrete well-formed Submodel of the C9 witness: it contains `c9Element`. -/
def c9Submodel : Submodel :=
  { identification := { id := strBytes "urn:x-test:submodel1", id_type := IdentifierType.IRI },
    submodel_element := [c9Element], id_short := "SM", category := none, description := none,
    parent := none, administration := none, data_specification := [], semantic_id := none,
    qualifier := [], kind := ModelingKind.INSTANCE }

/-- Identifier of the C10 witness: an IRI whose id contains characters that must be
percent-encoded (colon and slashes). -/
def c10Identifier : Identifier :=
  { id := strBytes "urn:x-test:submodel1", id_type := IdentifierType.IRI }

/-- C1 (counterexample): constructing a Range of kind=Instance with both `min` and `max`
set to None does NOT fail — `Range.__init__` performs no validation, so the construction
succeeds and in particular does not raise ConstraintViolation "range needs min or max". -/
theorem range_init_both_none_succeeds :
    rangeBothNone.isOk = true
      ∧ rangeBothNone
          ≠ Except.error (AASError.ConstraintViolation "range needs min or max") := by
  refine ⟨rfl, ?_⟩
  intro h
  simp [rangeBothNone, Range.init] at h

/-- C1 (amended): `Range.__init__` performs no min/max validation at all — construction
of a Range succeeds for every combination of bounds (in particular with both None, and
with at least one set), storing the given bounds unchanged; and afterwards clearing
`min` while `max` remains as given is a plain attribute write that also succeeds. -/
theorem range_init_never_fails (id_short : String) (value_type : DataTypeDef)
    (min_ max_ : Option ValueDataType) (category : Option String)
    (description : Option LangStringSet) (parent : Option Unit)
    (data_specification : Option (List Reference)) (semantic_id : Option Reference)
    (qualifier : Option (List Qualifier)) (kind : ModelingKind) :
    Range.init id_short value_type min_ max_ category description parent
        data_specification semantic_id qualifier kind
      = Except.ok (SubmodelElement.range
          (SubmodelElement.initCommon id_short category description parent
            data_specification semantic_id qualifier kind) value_type min_ max_)
    ∧ Range.set_min (SubmodelElement.range
          (SubmodelElement.initCommon id_short category description parent
            data_specification semantic_id qualifier kind) value_type min_ max_) none
      = Except.ok (SubmodelElement.range
          (SubmodelElement.initCommon id_short category description parent
            data_specification semantic_id qualifier kind) value_type none max_) := by
  exact ⟨rfl, rfl⟩

/-- C2 (code bug): `Entity.__init__` in src performs no management-type validation, so
both constructions that the repository's own test `EntityTest.test_set_entity`
(src/test/model/test_submodel.py:14-45) requires to raise a ConstraintViolation in fact
succeed: the self-managed entity without an asset identity and the co-managed entity
with one are both constructed without error. -/
theorem entity_init_does_not_validate :
    entitySelfManagedNoAsset.isOk = true ∧ entityCoManagedWithAsset.isOk = true := by
  exact ⟨rfl, rfl⟩

/-- C3 (counterexample): after constructing an OperationVariable around a Property of
kind=Instance, the wrapped element's kind is still INSTANCE — the constructor forces
only the OperationVariable's own kind to Template (`self.kind = TEMPLATE`) and stores
`value` unchanged, so the wrapped SubmodelElement does not end up with kind=Template. -/
theorem operation_variable_does_not_normalize_value :
    opVarWrappedKind (OperationVariable.init "ov" c3WrappedProperty none none none none
        none none) = some ModelingKind.INSTANCE
      ∧ resultKind (OperationVariable.init "ov" c3WrappedProperty none none none none
        none none) = some ModelingKind.TEMPLATE := by
  exact ⟨rfl, rfl⟩

/-- C3 (amended): every OperationVariable construction silently (without any error)
forces the OperationVariable's OWN kind to Template — its constructor accepts no kind
argument — while the wrapped SubmodelElement passed as `value` is stored with its kind
left unchanged. -/
theorem operation_variable_init_spec (id_short : String) (value : SubmodelElement)
    (category : Option String) (description : Option LangStringSet) (parent : Option Unit)
    (data_specification : Option (List Reference)) (semantic_id : Option Reference)
    (qualifier : Option (List Qualifier)) :
    OperationVariable.init id_short value category description parent data_specification
        semantic_id qualifier
      = Except.ok (SubmodelElement.operationVariable
          (SubmodelElement.initCommon id_short category description parent
            data_specification semantic_id qualifier ModelingKind.TEMPLATE) value)
    ∧ resultKind (OperationVariable.init id_short value category description parent
        data_specification semantic_id qualifier) = some ModelingKind.TEMPLATE
    ∧ (OperationVariable.init id_short value category description parent
        data_specification semantic_id qualifier).toOption.bind SubmodelElement.opVarValue
      = some value := by
  refine ⟨rfl, rfl, rfl⟩

/-- C4: inserting a child into a Namespace child collection checks id_short uniqueness
among siblings first and, for allow_duplicates=False collections, semantic_id uniqueness
second; a violation fails with DuplicateKey carrying the conflicting attribute name and
value (check-then-insert: no modified collection is produced on a violation), and an
accepted insertion appends exactly the new child. -/
theorem namespaceSet_add_checks_in_order (ns : NamespaceSet) (x : SubmodelElement) :
    ((∃ e ∈ ns.elements, e.id_short = x.id_short) →
      ns.add x = Except.error (AASError.DuplicateKey "id_short" x.id_short))
    ∧ ((∀ e ∈ ns.elements, e.id_short ≠ x.id_short) → ns.allow_duplicates = false →
      (∃ e ∈ ns.elements, e.semantic_id = x.semantic_id) →
      ns.add x = Except.error
        (AASError.DuplicateKey "semantic_id" (renderOptReference x.semantic_id)))
    ∧ ((∀ e ∈ ns.elements, e.id_short ≠ x.id_short) →
      (ns.allow_duplicates = false → ∀ e ∈ ns.elements, e.semantic_id ≠ x.semantic_id) →
      ns.add x = Except.ok { allow_duplicates := ns.allow_duplicates,
                             elements := ns.elements ++ [x] }) := by
  refine ⟨?_, ?_, ?_⟩
  · rintro ⟨e, he, hid⟩
    have hb : ns.elements.any (fun e => decide (e.id_short = x.id_short)) = true :=
      List.any_eq_true.mpr ⟨e, he, by simp [hid]⟩
    simp [NamespaceSet.add, hb]
  · rintro hno hdup ⟨e, he, hsem⟩
    have hb1 : ns.elements.any (fun e => decide (e.id_short = x.id_short)) = false := by
      simp only [List.any_eq_false, decide_eq_true_eq]
      exact hno
    have hb2 : ns.elements.any (fun e => decide (e.semantic_id = x.semantic_id)) = true :=
      List.any_eq_true.mpr ⟨e, he, by simp [hsem]⟩
    simp [NamespaceSet.add, hb1, hb2, hdup]
  · intro hno hsem
    have hb1 : ns.elements.any (fun e => decide (e.id_short = x.id_short)) = false := by
      simp only [List.any_eq_false, decide_eq_true_eq]
      exact hno
    by_cases hd : ns.allow_duplicates = false
    · have hb2 : ns.elements.any (fun e => decide (e.semantic_id = x.semantic_id)) = false := by
        simp only [List.any_eq_false, decide_eq_true_eq]
        exact hsem hd
      simp [NamespaceSet.add, hb1, hb2, hd]
    · have hd' : ns.allow_duplicates = true := by
        revert hd
        cases ns.allow_duplicates <;> simp
      simp [NamespaceSet.add, hb1, hd']

/-- C4 (witness): the collection scenario of the repository's own test — in a collection
with allow_duplicates=False already holding Property(test1, semanticId1), inserting a
Property with the same id_short fails on id_short, inserting one with a fresh id_short
but the same semantic_id fails on semantic_id, and one with both fresh succeeds. -/
theorem namespaceSet_add_checks_in_order_witness :
    c4Collection.add (c4Property "test1" c4SemanticId2)
        = Except.error (AASError.DuplicateKey "id_short" "test1")
      ∧ c4Collection.add (c4Property "test2" c4SemanticId1)
        = Except.error (AASError.DuplicateKey "semantic_id"
            (renderOptReference (some c4SemanticId1)))
      ∧ c4Collection.add (c4Property "test2" c4SemanticId2)
        = Except.ok { allow_duplicates := false,
                      elements := [c4Property "test1" c4SemanticId1,
                                   c4Property "test2" c4SemanticId2] } := by
  refine ⟨?_, ?_, ?_⟩
  · exact (namespaceSet_add_checks_in_order c4Collection
        (c4Property "test1" c4SemanticId2)).1
      ⟨c4Property "test1" c4SemanticId1, by simp [c4Collection], rfl⟩
  · exact (namespaceSet_add_checks_in_order c4Collection
        (c4Property "test2" c4SemanticId1)).2.1
      (by
        intro e he
        simp [c4Collection] at he
        subst he
        decide)
      rfl
      ⟨c4Property "test1" c4SemanticId1, by simp [c4Collection], rfl⟩
  · exact (namespaceSet_add_checks_in_order c4Collection
        (c4Property "test2" c4SemanticId2)).2.2
      (by
        intro e he
        simp [c4Collection] at he
        subst he
        decide)
      (by
        intro _ e he
        simp [c4Collection] at he
        subst he
        decide)

/-- Helper: a find over a filtered list misses when the filter keeps only non-matches. -/
theorem find?_filter_ne_none {α : Type} (l : List α) (p q : α → Bool)
    (h : ∀ a, q a = true → p a = false) : (l.filter q).find? p = none := by
  rw [List.find?_eq_none]
  intro a ha
  rw [List.mem_filter] at ha
  simp [h a ha.2]

/-- C5: the object-store round trip — after a successful `add x`, `get x.identifier`
returns the very same stored object `x`; after `remove x.identifier`, `get` fails with
NotFound; and adding any further object carrying an Identifier already present fails
with DuplicateKey. -/
theorem objectStore_roundtrip (s s' : DictObjectStore) (x : Identifiable)
    (hadd : s.add x = Except.ok s') :
    s'.get x.identification = Except.ok x
      ∧ s'.removeThenGet x.identification
          = Except.error (AASError.NotFound "Identifiable not found in store")
      ∧ ∀ y : Identifiable, y.identification = x.identification →
          s'.add y = Except.error
            (AASError.DuplicateKey "identification" (strOfBytes y.identification.id)) := by
  unfold DictObjectStore.add at hadd
  split at hadd
  · exact absurd hadd (by simp)
  · rename_i hnotin
    rw [Except.ok.injEq] at hadd
    subst hadd
    have hfind : s.entries.find? (fun e => decide (e.1 = x.identification)) = none := by
      rw [List.find?_eq_none]
      intro e he
      intro hdec
      exact hnotin (List.any_eq_true.mpr ⟨e, he, hdec⟩)
    have hmem : ((x.identification, x) : Identifier × Identifiable)
        ∈ s.entries ++ [(x.identification, x)] := by
      simp
    refine ⟨?_, ?_, ?_⟩
    · unfold DictObjectStore.get
      rw [List.find?_append, hfind]
      simp
    · unfold DictObjectStore.removeThenGet DictObjectStore.remove
      have hany : (s.entries ++ [(x.identification, x)]).any
          (fun e => decide (e.1 = x.identification)) = true :=
        List.any_eq_true.mpr ⟨(x.identification, x), hmem, by simp⟩
      simp only [hany, if_true]
      unfold DictObjectStore.get
      rw [find?_filter_ne_none]
      intro a ha
      simp at ha ⊢
      exact ha
    · intro y hy
      unfold DictObjectStore.add
      have hany : (s.entries ++ [(x.identification, x)]).any
          (fun e => decide (e.1 = y.identification)) = true :=
        List.any_eq_true.mpr ⟨(x.identification, x), hmem, by simp [hy]⟩
      simp [hany]

/-- C5 (witness): the round trip at a concrete store — the empty store after adding
`c5Aas1`; the duplicate added is a distinct object with the same Identifier. -/
theorem objectStore_roundtrip_witness :
    ({ entries := [(c5Aas1.identification, c5Aas1)] } : DictObjectStore).get
        c5Aas1.identification = Except.ok c5Aas1
      ∧ ({ entries := [(c5Aas1.identification, c5Aas1)] } : DictObjectStore).removeThenGet
          c5Aas1.identification
        = Except.error (AASError.NotFound "Identifiable not found in store")
      ∧ ({ entries := [(c5Aas1.identification, c5Aas1)] } : DictObjectStore).add
          c5Aas1Clone
        = Except.error (AASError.DuplicateKey "identification"
            (strOfBytes c5Aas1Clone.identification.id)) := by
  have h := objectStore_roundtrip { entries := [] }
    { entries := [(c5Aas1.identification, c5Aas1)] } c5Aas1 (by rfl)
  exact ⟨h.1, h.2.1, h.2.2 c5Aas1Clone (by rfl)⟩

/-- C6: multiplexer lookup — `get k` returns the object from the first store in list
order that contains `k`; when no composed store contains `k`, it fails with NotFound
(the multiplexer defines no add/remove of its own: it is a read-only composition). -/
theorem multiplexer_first_match (k : Identifier) :
    (∀ (pre : List DictObjectStore) (s : DictObjectStore) (post : List DictObjectStore)
        (v : Identifiable),
      (∀ t ∈ pre, t.get k
          = Except.error (AASError.NotFound "Identifiable not found in store")) →
      s.get k = Except.ok v →
      (RegistryMultiplexer.mk (pre ++ s :: post)).get k = Except.ok v)
    ∧ (∀ regs : List DictObjectStore,
      (∀ t ∈ regs, t.get k
          = Except.error (AASError.NotFound "Identifiable not found in store")) →
      (RegistryMultiplexer.mk regs).get k
        = Except.error (AASError.NotFound "Identifiable not found in any registry")) := by
  constructor
  · intro pre
    induction pre with
    | nil =>
      intro s post v _ hhit
      simp [RegistryMultiplexer.get, multiplexerLookup, hhit]
    | cons t pre ih =>
      intro s post v hmiss hhit
      have ht := hmiss t (by simp)
      have := ih s post v (fun u hu => hmiss u (by simp [hu])) hhit
      simpa [RegistryMultiplexer.get, multiplexerLookup, ht] using this
  · intro regs
    induction regs with
    | nil =>
      intro _
      rfl
    | cons t regs ih =>
      intro hmiss
      have ht := hmiss t (by simp)
      have := ih (fun u hu => hmiss u (by simp [hu]))
      simpa [RegistryMultiplexer.get, multiplexerLookup, ht] using this

/-- C6 (witness): the registry-multiplexer scenario of the repository's own test — an
AAS store followed by a submodel store; a submodel key resolves through the second store
(the first store misses), and an absent key yields NotFound. -/
theorem multiplexer_first_match_witness :
    (RegistryMultiplexer.mk [c6AasStore, c6SubmodelStore]).get
        { id := strBytes "urn:x-test:submodel1", id_type := IdentifierType.IRI }
      = Except.ok
          { identification := { id := strBytes "urn:x-test:submodel1",
                                id_type := IdentifierType.IRI }, payload := 3 }
      ∧ (RegistryMultiplexer.mk [c6AasStore, c6SubmodelStore]).get
          { id := strBytes "urn:x-test:submodel3", id_type := IdentifierType.IRI }
        = Except.error (AASError.NotFound "Identifiable not found in any registry") := by
  constructor
  · exact (multiplexer_first_match
        { id := strBytes "urn:x-test:submodel1", id_type := IdentifierType.IRI }).1
      [c6AasStore] c6SubmodelStore []
      { identification := { id := strBytes "urn:x-test:submodel1",
                            id_type := IdentifierType.IRI }, payload := 3 }
      (by
        intro t ht
        simp at ht
        subst ht
        rfl)
      (by rfl)
  · exact (multiplexer_first_match
        { id := strBytes "urn:x-test:submodel3", id_type := IdentifierType.IRI }).2
      [c6AasStore, c6SubmodelStore]
      (by
        intro t ht
        simp at ht
        rcases ht with h | h <;> subst h <;> rfl)

/-- Helper: in record mode (`raise_immediately = false`) a comparison run never raises
and appends exactly one record per compared condition. -/
theorem runChecks_record_mode (items : List ChkItem) :
    ∀ cs : List CheckResult,
      DataChecker.runChecks { raise_immediately := false, checks := cs } items
        = Except.ok { raise_immediately := false,
                      checks := cs ++ items.map ChkItem.record } := by
  induction items with
  | nil =>
    intro cs
    simp [DataChecker.runChecks]
  | cons i rest ih =>
    intro cs
    have step : DataChecker.runChecks { raise_immediately := false, checks := cs } (i :: rest)
        = DataChecker.runChecks { raise_immediately := false,
                                  checks := cs ++ [i.record] } rest := by
      simp only [DataChecker.runChecks, DataChecker.check, Bool.and_false]
      rw [if_neg (by simp)]
      rfl
    rw [step, ih (cs ++ [i.record])]
    simp [ChkItem.record, List.append_assoc]

/-- Helper: a run whose compared conditions all hold never raises (in either mode) and
appends one passing record per condition. -/
theorem runChecks_all_pass (items : List ChkItem) (hall : ∀ i ∈ items, i.outcome = true) :
    ∀ c : DataChecker,
      DataChecker.runChecks c items
        = Except.ok { raise_immediately := c.raise_immediately,
                      checks := c.checks ++ items.map ChkItem.record } := by
  induction items with
  | nil =>
    intro c
    simp [DataChecker.runChecks]
  | cons i rest ih =>
    intro c
    have hi : i.outcome = true := hall i (by simp)
    have step : DataChecker.runChecks c (i :: rest)
        = DataChecker.runChecks
            { raise_immediately := c.raise_immediately,
              checks := c.checks ++ [{ expectation := i.expectation, result := true,
                                       data := i.data }] } rest := by
      simp only [DataChecker.runChecks, DataChecker.check, hi, Bool.not_true,
        Bool.false_and]
      rw [if_neg (by simp)]
    rw [step, ih (fun j hj => hall j (by simp [hj]))]
    simp [ChkItem.record, hi, List.append_assoc]

/-- Helper: a comparison run distributes over list concatenation. -/
theorem runChecks_append (l₁ l₂ : List ChkItem) :
    ∀ c : DataChecker,
      DataChecker.runChecks c (l₁ ++ l₂)
        = match DataChecker.runChecks c l₁ with
          | Except.ok c' => DataChecker.runChecks c' l₂
          | Except.error e => Except.error e := by
  induction l₁ with
  | nil =>
    intro c
    simp [DataChecker.runChecks]
  | cons i rest ih =>
    intro c
    simp only [List.cons_append, DataChecker.runChecks]
    cases hc : c.check i.outcome i.expectation i.data with
    | ok c' => exact ih c'
    | error e => rfl

/-- Helper: filtering the failures out of mapped records is mapping the failing items. -/
theorem failed_of_map_record (items : List ChkItem) :
    (items.map ChkItem.record).filter (fun r => !r.result)
      = (items.filter (fun i => !i.outcome)).map ChkItem.record := by
  induction items with
  | nil => rfl
  | cons i rest ih =>
    cases h : i.outcome <;>
      simp [ChkItem.record, List.filter_cons, h, ih]

/-- C7: checker failure handling — with `raise_immediately = False` every compared
condition is recorded (one labelled record per condition, carrying the human-readable
rule and the labelled actual values), mismatches end up in `failed_checks`, and no
exception is raised during the comparison; with `raise_immediately = True` the first
failing check raises synchronously, carrying the same expectation text and data that
its failure record would have carried. -/
theorem dataChecker_modes :
    (∀ items : List ChkItem,
      DataChecker.runChecks { raise_immediately := false, checks := [] } items
          = Except.ok { raise_immediately := false, checks := items.map ChkItem.record }
        ∧ DataChecker.failed_checks
            { raise_immediately := false, checks := items.map ChkItem.record }
          = (items.filter (fun i => !i.outcome)).map ChkItem.record)
    ∧ (∀ (pre : List ChkItem) (i : ChkItem) (post : List ChkItem),
        (∀ j ∈ pre, j.outcome = true) → i.outcome = false →
        DataChecker.runChecks { raise_immediately := true, checks := [] } (pre ++ i :: post)
          = Except.error { message := "Check failed: " ++ (ChkItem.record i).expectation,
                           data := (ChkItem.record i).data }) := by
  constructor
  · intro items
    refine ⟨runChecks_record_mode items [], ?_⟩
    simpa [DataChecker.failed_checks] using failed_of_map_record items
  · intro pre i post hpre hi
    rw [runChecks_append]
    rw [runChecks_all_pass pre hpre]
    simp [DataChecker.runChecks, DataChecker.check, hi, ChkItem.record]

/-- C7 (witness): the DataCheckerTest scenario — one passing and one failing comparison
in record mode, and a failing comparison with labelled data in raise mode. -/
theorem dataChecker_modes_witness :
    DataChecker.runChecks { raise_immediately := false, checks := [] }
        [{ outcome := true, expectation := "Assertion test", data := [] },
         { outcome := false, expectation := "Assertion test", data := [] }]
      = Except.ok { raise_immediately := false,
                    checks := [{ expectation := "Assertion test", result := true, data := [] },
                               { expectation := "Assertion test", result := false, data := [] }] }
      ∧ DataChecker.failed_checks
          { raise_immediately := false,
            checks := [{ expectation := "Assertion test", result := true, data := [] },
                       { expectation := "Assertion test", result := false, data := [] }] }
        = [{ expectation := "Assertion test", result := false, data := [] }]
      ∧ DataChecker.runChecks { raise_immediately := true, checks := [] }
          [{ outcome := true, expectation := "Assertion test", data := [] },
           { outcome := false, expectation := "Assertion test 1",
             data := [("value", "kwargs1")] }]
        = Except.error { message := "Check failed: Assertion test 1",
                         data := [("value", "kwargs1")] } := by
  refine ⟨?_, ?_, ?_⟩
  · exact (dataChecker_modes.1
      [{ outcome := true, expectation := "Assertion test", data := [] },
       { outcome := false, expectation := "Assertion test", data := [] }]).1
  · exact (dataChecker_modes.1
      [{ outcome := true, expectation := "Assertion test", data := [] },
       { outcome := false, expectation := "Assertion test", data := [] }]).2
  · exact dataChecker_modes.2
      [{ outcome := true, expectation := "Assertion test", data := [] }]
      { outcome := false, expectation := "Assertion test 1", data := [("value", "kwargs1")] }
      [] (by decide) (by decide)

/-- Helper: decoding a hex digit produced by `hexDigitUpper` gives the value back. -/
theorem hexVal_hexDigitUpper (m : Nat) (h : m < 16) : hexVal (hexDigitUpper m) = some m := by
  interval_cases m <;> rfl

/-- Helper: safe bytes are below 128. -/
theorem alwaysSafeByte_lt_128 (b : Nat) (h : alwaysSafeByte b = true) : b < 128 := by
  simp only [alwaysSafeByte, Bool.or_eq_true, Bool.and_eq_true, decide_eq_true_eq,
    beq_iff_eq] at h
  omega

/-- Helper: a safe byte round-trips through `Char.ofNat`/`Char.toNat` and is not the
percent sign. -/
theorem safe_char_spec : ∀ b : Nat, b < 128 → alwaysSafeByte b = true →
    ((Char.ofNat b).toNat = b ∧ ¬ Char.ofNat b = '%') := by
  decide

/-- Helper: unquoting a quoted byte in front of any tail yields the byte and continues. -/
theorem url_unquote_quoteByte (b : Nat) (hb : b < 256) (tail : List Char) :
    url_unquote (quoteByte b ++ tail) = b :: url_unquote tail := by
  by_cases hs : alwaysSafeByte b = true
  · have h128 := alwaysSafeByte_lt_128 b hs
    obtain ⟨h1, h2⟩ := safe_char_spec b h128 hs
    simp only [quoteByte, hs, if_true, List.cons_append, List.nil_append]
    rw [url_unquote.eq_def]
    simp only [h2, if_false]
    rw [h1]
  · simp only [quoteByte, hs, if_false, List.cons_append, List.nil_append]
    rw [url_unquote.eq_def]
    simp [hexVal_hexDigitUpper (b / 16) (by omega : b / 16 < 16),
      hexVal_hexDigitUpper (b % 16) (by omega : b % 16 < 16)]
    omega

/-- Helper: percent-quoting with no safe characters is inverted exactly by unquoting. -/
theorem url_unquote_url_quote (bs : List Nat) (h : ∀ b ∈ bs, b < 256) :
    url_unquote (url_quote bs) = bs := by
  induction bs with
  | nil => rfl
  | cons b rest ih =>
    have hb : b < 256 := h b (by simp)
    have hq : url_quote (b :: rest) = quoteByte b ++ url_quote rest := by
      simp [url_quote]
    rw [hq, url_unquote_quoteByte b hb, ih (fun x hx => h x (by simp [hx]))]

/-- Helper: splitting on the first colon of `t ++ ":" ++ rest` with `t` colon-free
recovers the two parts. -/
theorem splitOnceColon_append (t : List Char) (hni : ':' ∉ t) (rest : List Char) :
    splitOnceColon (t ++ ':' :: rest) = some (t, rest) := by
  induction t with
  | nil => rfl
  | cons c t ih =>
    have hc : ¬ c = ':' := fun h => hni (by simp [h])
    have ht : ':' ∉ t := fun h => hni (by simp [h])
    simp only [List.cons_append, splitOnceColon, List.append_eq]
    rw [if_neg hc, ih ht]

/-- Helper: the id-type names of the adapter table contain no colon. -/
theorem identifier_types_no_colon : ∀ ty : IdentifierType,
    ':' ∉ (IDENTIFIER_TYPES ty).data := by
  intro ty
  cases ty <;> decide

/-- Helper: the inverse adapter table inverts the forward table. -/
theorem identifier_types_inverse_of (ty : IdentifierType) :
    IDENTIFIER_TYPES_INVERSE (IDENTIFIER_TYPES ty) = some ty := by
  cases ty <;> rfl

/-- C10: for every Identifier (whose id-type has an entry in the IDENTIFIER_TYPES table,
which all three id-types do), decoding the URI encoding returns the identifier exactly —
the percent-quoting of the id with no safe characters joined to the id-type name by a
colon is inverted by the decoder's split on the first colon. -/
theorem identifier_uri_roundtrip (i : Identifier) (h : ∀ b ∈ i.id, b < 256) :
    identifier_uri_decode (identifier_uri_encode i) = Except.ok i := by
  obtain ⟨bs, ty⟩ := i
  have henc : identifier_uri_encode { id := bs, id_type := ty }
      = (IDENTIFIER_TYPES ty).data ++ (':' :: url_quote bs) := by
    simp [identifier_uri_encode]
  rw [henc]
  unfold identifier_uri_decode
  rw [splitOnceColon_append _ (identifier_types_no_colon ty)]
  have hq : url_unquote (url_quote bs) = bs := url_unquote_url_quote bs (by simpa using h)
  cases ty <;> simp [IDENTIFIER_TYPES, IDENTIFIER_TYPES_INVERSE, hq]

/-- C10 (witness): the round trip at the concrete IRI identifier
`urn:x-test:submodel1`, whose id contains colons that must be percent-encoded. -/
theorem identifier_uri_roundtrip_witness :
    (∀ b ∈ c10Identifier.id, b < 256)
      ∧ identifier_uri_decode (identifier_uri_encode c10Identifier)
        = Except.ok c10Identifier := by
  exact ⟨by decide, identifier_uri_roundtrip c10Identifier (by decide)⟩

/-- Helper for C8: after the leaf checks the comparison reduces to the child check of
the single missing Property. -/
theorem c8_step1 :
    c8Result =
      AASDataChecker.checkChildrenById c8Checker1 [] [c8Property] "Identifier(CUSTOM=test)" :=
  rfl

set_option maxRecDepth 10000 in
/-- Helper for C8: the missing-child check records one failed existence check and
recurses on the empty remainder. -/
theorem c8_step2 :
    AASDataChecker.checkChildrenById c8Checker1 [] [c8Property] "Identifier(CUSTOM=test)" =
      AASDataChecker.checkChildrenById c8Checker2 [] [] "Identifier(CUSTOM=test)" := by
  rw [AASDataChecker.checkChildrenById.eq_def]
  rfl

/-- Helper for C8: the empty remainder check returns the accumulated checker. -/
theorem c8_step3 :
    AASDataChecker.checkChildrenById c8Checker2 [] [] "Identifier(CUSTOM=test)" =
      Except.ok c8Checker2 := by
  rw [AASDataChecker.checkChildrenById.eq_def]

/-- Helper for C8: the comparison succeeds (does not raise) with the accumulated
checker `c8Checker2`. -/
theorem c8_result_eval : c8Result = Except.ok c8Checker2 := by
  rw [c8_step1, c8_step2, c8_step3]

set_option maxRecDepth 10000 in
/-- Helper for C8: the rendered failure messages of the scenario. -/
theorem c8_messages_eval :
    c8FailureMessages =
      ["FAIL: Submodel[Identifier(CUSTOM=test)] must contain 1 SubmodelElements (count=0)",
       "FAIL: Submodel ElementProperty[Identifier(CUSTOM=test) / Prop1] must exist ()"] := by
  unfold c8FailureMessages
  rw [c8_result_eval]
  rfl

/-- C8 (counterexample): comparing the empty Submodel against the one-Property Submodel
of the scenario yields exactly 2 failures, but none of their messages contains the text
"Submodel Element Property" (with a space) claimed by the spec: the existence failure is
rendered "Submodel ElementProperty[...]", the label concatenated directly with the
element repr (exactly as the repository's own test test_submodel_checker asserts). -/
theorem submodel_checker_scenario_counterexample :
    c8FailureMessages.length = 2
      ∧ c8FailureMessages.any
          (fun m => strContainsSub m "Submodel Element Property") = false := by
  rw [c8_messages_eval]
  exact ⟨by decide, by decide⟩

/-- C8 (amended): the scenario comparison raises nothing and yields exactly the two
failures "Submodel[Identifier(CUSTOM=test)] must contain 1 SubmodelElements (count=0)"
and "Submodel ElementProperty[Identifier(CUSTOM=test) / Prop1] must exist ()". -/
theorem submodel_checker_scenario_failures :
    c8Result.isOk = true
      ∧ c8FailureMessages =
        ["FAIL: Submodel[Identifier(CUSTOM=test)] must contain 1 SubmodelElements (count=0)",
         "FAIL: Submodel ElementProperty[Identifier(CUSTOM=test) / Prop1] must exist ()"] := by
  exact ⟨by rw [c8_result_eval]; rfl, c8_messages_eval⟩

/-- Helper: in a qualifier set with pairwise-distinct types, looking a member's type up
finds that member itself. -/
theorem find?_qualifier_self (l : List Qualifier) (h : qualifierTypesNodupB l = true) :
    ∀ q ∈ l, l.find? (fun p => decide (p.type_ = q.type_)) = some q := by
  induction l with
  | nil => simp
  | cons a l ih =>
    intro q hq
    simp only [qualifierTypesNodupB, Bool.and_eq_true, Bool.not_eq_true'] at h
    rcases List.mem_cons.mp hq with rfl | hmem
    · simp [List.find?_cons]
    · have hne : ¬ a.type_ = q.type_ := by
        intro he
        have hx : l.any (fun p => decide (p.type_ = a.type_)) = true :=
          List.any_eq_true.mpr ⟨q, hmem, by simp [he]⟩
        rw [h.1] at hx
        exact Bool.false_ne_true hx
      rw [List.find?_cons]
      have hd : decide (a.type_ = q.type_) = false := by simpa using hne
      rw [hd]
      exact ih h.2 q hmem

/-- Helper: in a child list with pairwise-distinct id_shorts, looking a member's
id_short up finds that member itself. -/
theorem find?_id_short_self (l : List SubmodelElement) (h : idShortsNodupB l = true) :
    ∀ x ∈ l, l.find? (fun a => decide (a.id_short = x.id_short)) = some x := by
  induction l with
  | nil => simp
  | cons a l ih =>
    intro x hx
    simp only [idShortsNodupB, Bool.and_eq_true, Bool.not_eq_true'] at h
    rcases List.mem_cons.mp hx with rfl | hmem
    · simp [List.find?_cons]
    · have hne : ¬ a.id_short = x.id_short := by
        intro he
        have hy : l.any (fun f => decide (f.id_short = a.id_short)) = true :=
          List.any_eq_true.mpr ⟨x, hmem, by simp [he]⟩
        rw [h.1] at hy
        exact Bool.false_ne_true hy
      rw [List.find?_cons]
      have hd : decide (a.id_short = x.id_short) = false := by simpa using hne
      rw [hd]
      exact ih h.2 x hmem

/-- Helper: every member of a well-formed element list is well-formed. -/
theorem wfElementList_mem (l : List SubmodelElement) (h : wfElementList l = true) :
    ∀ x ∈ l, wfElement x = true := by
  induction l with
  | nil => simp
  | cons a l ih =>
    intro x hx
    simp only [wfElementList, Bool.and_eq_true] at h
    rcases List.mem_cons.mp hx with rfl | hmem
    · exact h.1
    · exact ih h.2 x hmem

/-- Helper: comparing a qualifier set with itself produces only passing comparisons. -/
theorem qualifierItems_self_pass (l : List Qualifier) (rep : String)
    (h : qualifierTypesNodupB l = true) :
    ∀ i ∈ qualifierItems l l rep, i.outcome = true := by
  intro i hi
  simp only [qualifierItems, List.mem_cons, List.mem_flatten] at hi
  rcases hi with rfl | ⟨bucket, hb, hib⟩
  · simp
  · rw [List.mem_map] at hb
    obtain ⟨q, hq, rfl⟩ := hb
    rw [find?_qualifier_self l h q hq] at hib
    simp only [List.mem_cons, List.mem_singleton] at hib
    rcases hib with rfl | rfl | hfalse
    · rfl
    · simp
    · simp at hfalse

/-- Helper: comparing a common attribute block with itself produces only passing
comparisons. -/
theorem commonItems_self_pass (x : SubmodelElementData) (rep : String)
    (h : qualifierTypesNodupB x.qualifier = true) :
    ∀ i ∈ commonItems x x rep, i.outcome = true := by
  intro i hi
  simp only [commonItems, List.mem_append, List.mem_cons, List.mem_singleton] at hi
  rcases hi with (rfl | rfl | rfl | rfl | rfl | hfalse) | hq
  · simp [attrItem]
  · simp [attrItem]
  · simp [attrItem]
  · simp [attrItem]
  · simp [attrItem]
  · simp at hfalse
  · exact qualifierItems_self_pass x.qualifier rep h i hq

/-- Helper: comparing an element's non-recursive attributes with themselves produces
only passing comparisons. -/
theorem leafItems_self_pass (e : SubmodelElement) (rep : String)
    (h : qualifierTypesNodupB e.common.qualifier = true) :
    ∀ i ∈ leafItems e e rep, i.outcome = true := by
  cases e with
  | property cm vt v vid =>
    intro i hi
    simp only [leafItems, List.mem_append, List.mem_cons, List.mem_singleton] at hi
    rcases hi with hc | rfl | rfl | rfl | hfalse
    · exact commonItems_self_pass cm rep h i hc
    · simp [attrItem]
    · simp [attrItem]
    · simp [attrItem]
    · simp at hfalse
  | multiLanguageProperty cm v vid =>
    intro i hi
    simp only [leafItems, List.mem_append, List.mem_cons, List.mem_singleton] at hi
    rcases hi with hc | rfl | rfl | hfalse
    · exact commonItems_self_pass cm rep h i hc
    · simp [attrItem]
    · simp [attrItem]
    · simp at hfalse
  | range cm vt mn mx =>
    intro i hi
    simp only [leafItems, List.mem_append, List.mem_cons, List.mem_singleton] at hi
    rcases hi with hc | rfl | rfl | rfl | hfalse
    · exact commonItems_self_pass cm rep h i hc
    · simp [attrItem]
    · simp [attrItem]
    · simp [attrItem]
    · simp at hfalse
  | blob cm v m =>
    intro i hi
    simp only [leafItems, List.mem_append, List.mem_cons, List.mem_singleton] at hi
    rcases hi with hc | rfl | rfl | hfalse
    · exact commonItems_self_pass cm rep h i hc
    · simp [attrItem]
    · simp [attrItem]
    · simp at hfalse
  | file cm v m =>
    intro i hi
    simp only [leafItems, List.mem_append, List.mem_cons, List.mem_singleton] at hi
    rcases hi with hc | rfl | rfl | hfalse
    · exact commonItems_self_pass cm rep h i hc
    · simp [attrItem]
    · simp [attrItem]
    · simp at hfalse
  | referenceElement cm v =>
    intro i hi
    simp only [leafItems, List.mem_append, List.mem_singleton] at hi
    rcases hi with hc | rfl
    · exact commonItems_self_pass cm rep h i hc
    · simp [attrItem]
  | submodelElementCollectionOrdered cm v =>
    intro i hi
    simp only [leafItems, List.mem_append, List.mem_singleton] at hi
    rcases hi with hc | rfl
    · exact commonItems_self_pass cm rep h i hc
    · simp [countItem]
  | submodelElementCollectionUnordered cm v =>
    intro i hi
    simp only [leafItems, List.mem_append, List.mem_singleton] at hi
    rcases hi with hc | rfl
    · exact commonItems_self_pass cm rep h i hc
    · simp [countItem]
  | relationshipElement cm f s =>
    intro i hi
    simp only [leafItems, List.mem_append, List.mem_cons, List.mem_singleton] at hi
    rcases hi with hc | rfl | rfl | hfalse
    · exact commonItems_self_pass cm rep h i hc
    · simp [attrItem]
    · simp [attrItem]
    · simp at hfalse
  | annotatedRelationshipElement cm f s na =>
    intro i hi
    simp only [leafItems, List.mem_append, List.mem_cons, List.mem_singleton,
      List.mem_map] at hi
    rcases hi with (hc | rfl | rfl | rfl | hfalse) | ⟨r, hr, rfl⟩
    · exact commonItems_self_pass cm rep h i hc
    · simp [attrItem]
    · simp [attrItem]
    · simp [countItem]
    · simp at hfalse
    · simpa using hr
  | operationVariable cm v =>
    intro i hi
    simp only [leafItems] at hi
    exact commonItems_self_pass cm rep h i hi
  | operation cm iv ov iov =>
    intro i hi
    simp only [leafItems, List.mem_append, List.mem_cons, List.mem_singleton] at hi
    rcases hi with hc | rfl | rfl | rfl | hfalse
    · exact commonItems_self_pass cm rep h i hc
    · simp [countItem]
    · simp [countItem]
    · simp [countItem]
    · simp at hfalse
  | capability cm =>
    intro i hi
    simp only [leafItems] at hi
    exact commonItems_self_pass cm rep h i hi
  | entity cm t st a =>
    intro i hi
    simp only [leafItems, List.mem_append, List.mem_cons, List.mem_singleton] at hi
    rcases hi with hc | rfl | rfl | rfl | hfalse
    · exact commonItems_self_pass cm rep h i hc
    · simp [attrItem]
    · simp [attrItem]
    · simp [countItem]
    · simp at hfalse
  | basicEvent cm o =>
    intro i hi
    simp only [leafItems, List.mem_append, List.mem_singleton] at hi
    rcases hi with hc | rfl
    · exact commonItems_self_pass cm rep h i hc
    · simp [attrItem]

/-- Helper: a finished step that returns the checker unchanged is passing. -/
theorem okPassing_ok (c : DataChecker) : okPassing c (Except.ok c) := by
  refine ⟨[], by simp, by simp⟩

/-- Helper: a single passing check is a passing step. -/
theorem okPassing_check_pass (c : DataChecker) (msg : String)
    (kw : List (String × String)) : okPassing c (c.check true msg kw) := by
  refine ⟨[{ expectation := msg, result := true, data := kw }], ?_, ?_⟩
  · simp [DataChecker.check]
  · intro x hx
    rw [List.mem_singleton] at hx
    subst hx
    rfl

/-- Helper: running comparisons whose conditions all hold is a passing step. -/
theorem okPassing_runChecks (c : DataChecker) (items : List ChkItem)
    (h : ∀ i ∈ items, i.outcome = true) : okPassing c (DataChecker.runChecks c items) := by
  refine ⟨items.map ChkItem.record, runChecks_all_pass items h c, ?_⟩
  intro x hx
  rw [List.mem_map] at hx
  obtain ⟨i, hi, rfl⟩ := hx
  exact h i hi

/-- Helper: dispatching an element against itself produces only passing non-recursive
comparisons. -/
theorem dispatchItems_self_pass (e : SubmodelElement) (rep : String)
    (h : qualifierTypesNodupB e.common.qualifier = true) :
    ∀ i ∈ dispatchItems e e rep, i.outcome = true := by
  intro i hi
  simp only [dispatchItems, List.mem_cons] at hi
  rcases hi with rfl | hmem
  · simp
  · rw [if_pos trivial] at hmem
    exact leafItems_self_pass e rep h i hmem

/-- Helper: passing records survive into a checker carrying earlier records. -/
theorem okPassing_extend {c : DataChecker} {rs1 : List CheckResult}
    (hp1 : ∀ x ∈ rs1, x.result = true) {r : Except CheckError DataChecker}
    (h2 : okPassing { raise_immediately := c.raise_immediately,
                      checks := c.checks ++ rs1 } r) :
    okPassing c r := by
  obtain ⟨rs2, hr, hp2⟩ := h2
  refine ⟨rs1 ++ rs2, by simpa [List.append_assoc] using hr, ?_⟩
  intro x hx
  rcases List.mem_append.mp hx with h | h
  · exact hp1 x h
  · exact hp2 x h

/-- Helper: comparing a Submodel non-recursive attribute block with itself produces only
passing comparisons. -/
theorem submodelLeafItems_self_pass (s : Submodel) (rep : String)
    (h : qualifierTypesNodupB s.qualifier = true) :
    ∀ i ∈ submodelLeafItems s s rep, i.outcome = true := by
  intro i hi
  simp only [submodelLeafItems, List.mem_append, List.mem_cons, List.mem_singleton] at hi
  rcases hi with ((rfl | rfl | rfl | rfl | rfl | rfl | hfalse) | hq) | rfl | hfalse2
  · simp [attrItem]
  · simp [attrItem]
  · simp [attrItem]
  · simp [attrItem]
  · simp [attrItem]
  · simp [attrItem]
  · simp at hfalse
  · exact qualifierItems_self_pass s.qualifier rep h i hq
  · simp [countItem]
  · simp at hfalse2

/-- Helper: a list in which every record passes filters down to no failures. -/
theorem passing_filter_nil (rs : List CheckResult)
    (h : ∀ x ∈ rs, x.result = true) :
    rs.filter (fun r => !r.result) = [] := by
  induction rs with
  | nil => rfl
  | cons a t iht =>
    have ha := h a (List.mem_cons_self a t)
    simp [List.filter, ha, iht (fun x hx => h x (List.mem_cons_of_mem a hx))]

set_option maxHeartbeats 4000000 in
/-- Helper: by strong induction on size, comparing a well-formed element (or element
list) with itself is a passing step for each of the three recursive checker functions. -/
theorem checker_self_passing (n : Nat) :
    (∀ e : SubmodelElement, sizeOf e ≤ n → wfElement e = true →
      ∀ (c : DataChecker) (path : String),
        okPassing c (AASDataChecker.check_submodel_element_equal c e e path))
    ∧ (∀ es l : List SubmodelElement, sizeOf es ≤ n → (∀ x ∈ es, x ∈ l) →
        wfElementList es = true → idShortsNodupB l = true →
      ∀ (c : DataChecker) (path : String),
        okPassing c (AASDataChecker.checkChildrenById c l es path))
    ∧ (∀ es : List SubmodelElement, sizeOf es ≤ n → wfElementList es = true →
      ∀ (c : DataChecker) (path : String),
        okPassing c (AASDataChecker.checkChildrenOrdered c es es path)) := by
  induction n using Nat.strong_induction_on with
  | _ n ih =>
    refine ⟨?_, ?_, ?_⟩
    · intro e hn hwf c path
      cases e with
      | property cm vt v vid =>
        simp only [wfElement, wfCommonB] at hwf
        obtain ⟨rs1, heq, hp1⟩ := okPassing_runChecks c
          (dispatchItems (SubmodelElement.property cm vt v vid) (SubmodelElement.property cm vt v vid)
            ((SubmodelElement.property cm vt v vid).className ++ "[" ++ path ++ "]"))
          (dispatchItems_self_pass _ _ hwf)
        rw [AASDataChecker.check_submodel_element_equal.eq_def]
        simp only [heq]
        exact ⟨rs1, rfl, hp1⟩
      | multiLanguageProperty cm v vid =>
        simp only [wfElement, wfCommonB] at hwf
        obtain ⟨rs1, heq, hp1⟩ := okPassing_runChecks c
          (dispatchItems (SubmodelElement.multiLanguageProperty cm v vid) (SubmodelElement.multiLanguageProperty cm v vid)
            ((SubmodelElement.multiLanguageProperty cm v vid).className ++ "[" ++ path ++ "]"))
          (dispatchItems_self_pass _ _ hwf)
        rw [AASDataChecker.check_submodel_element_equal.eq_def]
        simp only [heq]
        exact ⟨rs1, rfl, hp1⟩
      | range cm vt mn mx =>
        simp only [wfElement, wfCommonB] at hwf
        obtain ⟨rs1, heq, hp1⟩ := okPassing_runChecks c
          (dispatchItems (SubmodelElement.range cm vt mn mx) (SubmodelElement.range cm vt mn mx)
            ((SubmodelElement.range cm vt mn mx).className ++ "[" ++ path ++ "]"))
          (dispatchItems_self_pass _ _ hwf)
        rw [AASDataChecker.check_submodel_element_equal.eq_def]
        simp only [heq]
        exact ⟨rs1, rfl, hp1⟩
      | blob cm v mt =>
        simp only [wfElement, wfCommonB] at hwf
        obtain ⟨rs1, heq, hp1⟩ := okPassing_runChecks c
          (dispatchItems (SubmodelElement.blob cm v mt) (SubmodelElement.blob cm v mt)
            ((SubmodelElement.blob cm v mt).className ++ "[" ++ path ++ "]"))
          (dispatchItems_self_pass _ _ hwf)
        rw [AASDataChecker.check_submodel_element_equal.eq_def]
        simp only [heq]
        exact ⟨rs1, rfl, hp1⟩
      | file cm v mt =>
        simp only [wfElement, wfCommonB] at hwf
        obtain ⟨rs1, heq, hp1⟩ := okPassing_runChecks c
          (dispatchItems (SubmodelElement.file cm v mt) (SubmodelElement.file cm v mt)
            ((SubmodelElement.file cm v mt).className ++ "[" ++ path ++ "]"))
          (dispatchItems_self_pass _ _ hwf)
        rw [AASDataChecker.check_submodel_element_equal.eq_def]
        simp only [heq]
        exact ⟨rs1, rfl, hp1⟩
      | referenceElement cm v =>
        simp only [wfElement, wfCommonB] at hwf
        obtain ⟨rs1, heq, hp1⟩ := okPassing_runChecks c
          (dispatchItems (SubmodelElement.referenceElement cm v) (SubmodelElement.referenceElement cm v)
            ((SubmodelElement.referenceElement cm v).className ++ "[" ++ path ++ "]"))
          (dispatchItems_self_pass _ _ hwf)
        rw [AASDataChecker.check_submodel_element_equal.eq_def]
        simp only [heq]
        exact ⟨rs1, rfl, hp1⟩
      | relationshipElement cm f s =>
        simp only [wfElement, wfCommonB] at hwf
        obtain ⟨rs1, heq, hp1⟩ := okPassing_runChecks c
          (dispatchItems (SubmodelElement.relationshipElement cm f s) (SubmodelElement.relationshipElement cm f s)
            ((SubmodelElement.relationshipElement cm f s).className ++ "[" ++ path ++ "]"))
          (dispatchItems_self_pass _ _ hwf)
        rw [AASDataChecker.check_submodel_element_equal.eq_def]
        simp only [heq]
        exact ⟨rs1, rfl, hp1⟩
      | annotatedRelationshipElement cm f s na =>
        simp only [wfElement, wfCommonB] at hwf
        obtain ⟨rs1, heq, hp1⟩ := okPassing_runChecks c
          (dispatchItems (SubmodelElement.annotatedRelationshipElement cm f s na) (SubmodelElement.annotatedRelationshipElement cm f s na)
            ((SubmodelElement.annotatedRelationshipElement cm f s na).className ++ "[" ++ path ++ "]"))
          (dispatchItems_self_pass _ _ hwf)
        rw [AASDataChecker.check_submodel_element_equal.eq_def]
        simp only [heq]
        exact ⟨rs1, rfl, hp1⟩
      | capability cm =>
        simp only [wfElement, wfCommonB] at hwf
        obtain ⟨rs1, heq, hp1⟩ := okPassing_runChecks c
          (dispatchItems (SubmodelElement.capability cm) (SubmodelElement.capability cm)
            ((SubmodelElement.capability cm).className ++ "[" ++ path ++ "]"))
          (dispatchItems_self_pass _ _ hwf)
        rw [AASDataChecker.check_submodel_element_equal.eq_def]
        simp only [heq]
        exact ⟨rs1, rfl, hp1⟩
      | basicEvent cm o =>
        simp only [wfElement, wfCommonB] at hwf
        obtain ⟨rs1, heq, hp1⟩ := okPassing_runChecks c
          (dispatchItems (SubmodelElement.basicEvent cm o) (SubmodelElement.basicEvent cm o)
            ((SubmodelElement.basicEvent cm o).className ++ "[" ++ path ++ "]"))
          (dispatchItems_self_pass _ _ hwf)
        rw [AASDataChecker.check_submodel_element_equal.eq_def]
        simp only [heq]
        exact ⟨rs1, rfl, hp1⟩
      | submodelElementCollectionOrdered cm v =>
        simp only [wfElement, wfCommonB, Bool.and_eq_true] at hwf
        have hv : sizeOf v < n := by
          have h := hn
          simp only [SubmodelElement.submodelElementCollectionOrdered.sizeOf_spec] at h
          omega
        obtain ⟨rs1, heq, hp1⟩ := okPassing_runChecks c
          (dispatchItems (SubmodelElement.submodelElementCollectionOrdered cm v)
            (SubmodelElement.submodelElementCollectionOrdered cm v)
            ((SubmodelElement.submodelElementCollectionOrdered cm v).className
              ++ "[" ++ path ++ "]"))
          (dispatchItems_self_pass _ _ hwf.1)
        rw [AASDataChecker.check_submodel_element_equal.eq_def]
        simp only [heq]
        refine okPassing_extend hp1 ?_
        exact (ih (sizeOf v) hv).2.2 v (le_refl _) hwf.2 _ path
      | submodelElementCollectionUnordered cm v =>
        simp only [wfElement, wfCommonB, Bool.and_eq_true] at hwf
        have hv : sizeOf v < n := by
          have h := hn
          simp only [SubmodelElement.submodelElementCollectionUnordered.sizeOf_spec] at h
          omega
        obtain ⟨rs1, heq, hp1⟩ := okPassing_runChecks c
          (dispatchItems (SubmodelElement.submodelElementCollectionUnordered cm v)
            (SubmodelElement.submodelElementCollectionUnordered cm v)
            ((SubmodelElement.submodelElementCollectionUnordered cm v).className
              ++ "[" ++ path ++ "]"))
          (dispatchItems_self_pass _ _ hwf.1.1)
        rw [AASDataChecker.check_submodel_element_equal.eq_def]
        simp only [heq]
        refine okPassing_extend hp1 ?_
        exact (ih (sizeOf v) hv).2.1 v v (le_refl _) (fun y hy => hy) hwf.2 hwf.1.2 _ path
      | operationVariable cm v =>
        simp only [wfElement, wfCommonB, Bool.and_eq_true] at hwf
        have hv : sizeOf v < n := by
          have h := hn
          simp only [SubmodelElement.operationVariable.sizeOf_spec] at h
          omega
        obtain ⟨rs1, heq, hp1⟩ := okPassing_runChecks c
          (dispatchItems (SubmodelElement.operationVariable cm v)
            (SubmodelElement.operationVariable cm v)
            ((SubmodelElement.operationVariable cm v).className ++ "[" ++ path ++ "]"))
          (dispatchItems_self_pass _ _ hwf.1)
        rw [AASDataChecker.check_submodel_element_equal.eq_def]
        simp only [heq]
        refine okPassing_extend hp1 ?_
        exact (ih (sizeOf v) hv).1 v (le_refl _) hwf.2 _ (path ++ " / " ++ v.id_short)
      | operation cm iv ov iov =>
        simp only [wfElement, wfCommonB, Bool.and_eq_true] at hwf
        obtain ⟨⟨⟨⟨⟨⟨hcm, hi1⟩, hi2⟩, ho1⟩, ho2⟩, hio1⟩, hio2⟩ := hwf
        have hsz : sizeOf iv < n ∧ sizeOf ov < n ∧ sizeOf iov < n := by
          have h := hn
          simp only [SubmodelElement.operation.sizeOf_spec] at h
          omega
        obtain ⟨rs1, heq, hp1⟩ := okPassing_runChecks c
          (dispatchItems (SubmodelElement.operation cm iv ov iov)
            (SubmodelElement.operation cm iv ov iov)
            ((SubmodelElement.operation cm iv ov iov).className ++ "[" ++ path ++ "]"))
          (dispatchItems_self_pass _ _ hcm)
        rw [AASDataChecker.check_submodel_element_equal.eq_def]
        simp only [heq]
        refine okPassing_extend hp1 ?_
        obtain ⟨rs2, heq2, hp2⟩ := (ih (sizeOf iv) hsz.1).2.1 iv iv (le_refl _)
          (fun y hy => hy) hi2 hi1
          { raise_immediately := c.raise_immediately, checks := c.checks ++ rs1 } path
        simp only [heq2]
        refine okPassing_extend hp2 ?_
        obtain ⟨rs3, heq3, hp3⟩ := (ih (sizeOf ov) hsz.2.1).2.1 ov ov (le_refl _)
          (fun y hy => hy) ho2 ho1
          { raise_immediately := c.raise_immediately, checks := c.checks ++ rs1 ++ rs2 } path
        simp only [heq3]
        refine okPassing_extend hp3 ?_
        exact (ih (sizeOf iov) hsz.2.2).2.1 iov iov (le_refl _) (fun y hy => hy) hio2 hio1 _ path
      | entity cm t st a =>
        simp only [wfElement, wfCommonB, Bool.and_eq_true] at hwf
        have hv : sizeOf st < n := by
          have h := hn
          simp only [SubmodelElement.entity.sizeOf_spec] at h
          omega
        obtain ⟨rs1, heq, hp1⟩ := okPassing_runChecks c
          (dispatchItems (SubmodelElement.entity cm t st a)
            (SubmodelElement.entity cm t st a)
            ((SubmodelElement.entity cm t st a).className ++ "[" ++ path ++ "]"))
          (dispatchItems_self_pass _ _ hwf.1.1)
        rw [AASDataChecker.check_submodel_element_equal.eq_def]
        simp only [heq]
        refine okPassing_extend hp1 ?_
        exact (ih (sizeOf st) hv).2.1 st st (le_refl _) (fun y hy => hy) hwf.2 hwf.1.2 _ path
    · intro es l hn hsub hwf hnodup c path
      cases es with
      | nil =>
        rw [AASDataChecker.checkChildrenById.eq_def]
        exact okPassing_ok c
      | cons x rest =>
        have hx_mem : x ∈ l := hsub x (List.mem_cons_self x rest)
        have hfind : l.find? (fun a => decide (a.id_short = x.id_short)) = some x :=
          find?_id_short_self l hnodup x hx_mem
        simp only [wfElementList, Bool.and_eq_true] at hwf
        have hsz : sizeOf x < n ∧ sizeOf rest < n := by
          have h := hn
          simp only [List.cons.sizeOf_spec] at h
          omega
        rw [AASDataChecker.checkChildrenById.eq_def]
        simp only [hfind]
        obtain ⟨rs1, heq1, hp1⟩ := okPassing_check_pass c
          ("Submodel Element" ++ x.className ++ "[" ++ (path ++ " / " ++ x.id_short)
            ++ "] must exist") []
        simp only [heq1]
        refine okPassing_extend hp1 ?_
        obtain ⟨rs2, heq2, hp2⟩ := (ih (sizeOf x) hsz.1).1 x (le_refl _) hwf.1
          { raise_immediately := c.raise_immediately, checks := c.checks ++ rs1 }
          (path ++ " / " ++ x.id_short)
        simp only [heq2]
        refine okPassing_extend hp2 ?_
        exact (ih (sizeOf rest) hsz.2).2.1 rest l (le_refl _)
          (fun y hy => hsub y (List.mem_cons_of_mem x hy)) hwf.2 hnodup _ path
    · intro es hn hwf c path
      cases es with
      | nil =>
        rw [AASDataChecker.checkChildrenOrdered.eq_def]
        exact okPassing_ok c
      | cons a rest =>
        simp only [wfElementList, Bool.and_eq_true] at hwf
        have hsz : sizeOf a < n ∧ sizeOf rest < n := by
          have h := hn
          simp only [List.cons.sizeOf_spec] at h
          omega
        rw [AASDataChecker.checkChildrenOrdered.eq_def]
        obtain ⟨rs1, heq1, hp1⟩ := (ih (sizeOf a) hsz.1).1 a (le_refl _) hwf.1 c
          (path ++ " / " ++ a.id_short)
        simp only [heq1]
        refine okPassing_extend hp1 ?_
        exact (ih (sizeOf rest) hsz.2).2.2 rest (le_refl _) hwf.2 _ path

/-- Helper: comparing a well-formed Submodel with itself is a passing step. -/
theorem check_submodel_equal_self_passing (s : Submodel) (hs : wfSubmodel s = true)
    (c : DataChecker) : okPassing c (AASDataChecker.check_submodel_equal c s s) := by
  simp only [wfSubmodel, Bool.and_eq_true] at hs
  obtain ⟨rs1, heq, hp1⟩ := okPassing_runChecks c
    (submodelLeafItems s s ("Submodel[" ++ s.identification.render ++ "]"))
    (submodelLeafItems_self_pass s _ hs.1.1)
  simp only [AASDataChecker.check_submodel_equal]
  simp only [heq]
  refine okPassing_extend hp1 ?_
  exact (checker_self_passing (sizeOf s.submodel_element)).2.1 s.submodel_element
    s.submodel_element (le_refl _) (fun y hy => hy) hs.2 hs.1.2 _ s.identification.render

/-- C9: comparing a well-formed model object with itself yields zero failures. -/
theorem checker_self_comparison_zero_failures (flag : Bool) (path : String)
    (e : SubmodelElement) (s : Submodel)
    (he : wfElement e = true) (hs : wfSubmodel s = true) :
    failedOf (AASDataChecker.check_submodel_element_equal
        { raise_immediately := flag, checks := [] } e e path) = some []
      ∧ failedOf (AASDataChecker.check_submodel_equal
          { raise_immediately := flag, checks := [] } s s) = some [] := by
  obtain ⟨rs1, heq1, hp1⟩ := (checker_self_passing (sizeOf e)).1 e (le_refl _) he
    { raise_immediately := flag, checks := [] } path
  obtain ⟨rs2, heq2, hp2⟩ := check_submodel_equal_self_passing s hs
    { raise_immediately := flag, checks := [] }
  rw [heq1, heq2]
  constructor
  · simp only [failedOf, DataChecker.failed_checks]
    rw [passing_filter_nil _ (by simpa using hp1)]
  · simp only [failedOf, DataChecker.failed_checks]
    rw [passing_filter_nil _ (by simpa using hp2)]

/-- C9 witness. -/
theorem checker_self_comparison_zero_failures_witness :
    wfElement c9Element = true ∧ wfSubmodel c9Submodel = true
      ∧ (failedOf (AASDataChecker.check_submodel_element_equal
            { raise_immediately := false, checks := [] } c9Element c9Element "e") = some []
          ∧ failedOf (AASDataChecker.check_submodel_equal
              { raise_immediately := false, checks := [] } c9Submodel c9Submodel) = some []) :=
  ⟨by decide, by decide,
    checker_self_comparison_zero_failures false "e" c9Element c9Submodel
      (by decide) (by decide)⟩
